import Mathlib

/-!
Shallow embedding of the FantasyBackend service layer (Go) in Lean 4.

The Go code is a three-layer CRUD backend (handler, service, repository)
for football entities: Team, Player, Game, PlayerStats.  We embed the
service-layer business logic: request validation, existence probes,
uniqueness probes, partial-update merge semantics, and the order in which
those steps run relative to repository writes.

Conventions of the embedding:
* Go `int` becomes `Int`; Go `*int` / `*string` (optional patch fields)
  become `Option Int` / `Option String`.
* Go `time.Time` is modelled as an integer instant (`Int`); `IsZero`
  becomes `= 0`, `Before x` becomes `< x`, `After x` becomes `> x`.
  The two time bounds computed from `time.Now()` in the Go validators
  (`oneYearAgo`, `twoYearsFromNow`) are passed in as parameters, since
  `time.Now()` is an external input.
* The repository layer together with its SQLite store is modelled by an
  explicit `DB` value holding the rows of the four tables plus a
  `writes` counter that counts successful repository write statements
  (create / update / delete), so that "no persistence call happened"
  is observable even when a write would have stored an unchanged row.
* Each service operation returns the pair of its Go results
  `(value-or-error, resulting store)`.
* `fmt.Errorf` messages are reproduced literally; `%w` wrapping becomes
  string concatenation, which is exactly what the HTTP layer sees.
-/

namespace FantasyBackend

/-- Go `unicode.IsSpace` (the code points `strings.TrimSpace` strips). -/
def isSpaceGo (c : Char) : Bool :=
  c.toNat = 32 ∨ (9 ≤ c.toNat ∧ c.toNat ≤ 13) ∨ c.toNat = 0x85 ∨ c.toNat = 0xA0 ∨
  c.toNat = 0x1680 ∨ (0x2000 ≤ c.toNat ∧ c.toNat ≤ 0x200A) ∨ c.toNat = 0x2028 ∨
  c.toNat = 0x2029 ∨ c.toNat = 0x202F ∨ c.toNat = 0x205F ∨ c.toNat = 0x3000

/-- Go `strings.TrimSpace`, written over the character list so it is
kernel-computable. -/
def trimGo (s : String) : String :=
  ⟨((s.data.dropWhile isSpaceGo).reverse.dropWhile isSpaceGo).reverse⟩

/-- ASCII lower-casing of one character. -/
def lowerCh (c : Char) : Char :=
  if 65 ≤ c.toNat ∧ c.toNat ≤ 90 then Char.ofNat (c.toNat + 32) else c

/-- Representative of a character's Unicode simple-fold orbit, for the
orbits that contain an ASCII letter: ASCII letters fold by case, and
U+017F (long s) and U+212A (kelvin sign) — the only code points outside
ASCII whose simple-fold orbit meets ASCII — fold to `s` and `k`.  Every
other character maps to itself. -/
def foldRep (c : Char) : Char :=
  if c.toNat = 0x17F then 's'
  else if c.toNat = 0x212A then 'k'
  else lowerCh c

/-- Model of Go `strings.EqualFold` (Unicode simple case folding).  Two
characters are fold-equal in Go iff they share a simple-fold orbit;
`foldRep` realizes that orbit equivalence exactly whenever at least one
side is ASCII, and the validators only ever compare candidate strings
against pure-ASCII enum constants, so this model agrees with Go on
every comparison the program performs, for arbitrary input strings. -/
def eqFold (a b : String) : Bool := a.data.map foldRep == b.data.map foldRep

/-- Go `%v` rendering of a `[]string` value, e.g. `[AFC NFC]`. -/
def goStrSlice (xs : List String) : String :=
  "[" ++ String.intercalate " " xs ++ "]"

/-- Patch helper for Go `if req.X != nil { cur.X = req.X }` on optional
columns: a supplied patch field replaces the stored option. -/
def patchO (p cur : Option Int) : Option Int :=
  match p with
  | some v => some v
  | none => cur

/-- Patch helper for Go `if req.X != nil { cur.X = *req.X }`. -/
def patchV {α : Type} (p : Option α) (cur : α) : α :=
  match p with
  | some v => v
  | none => cur

/-- Patch helper for Go `if req.X != nil { cur.X = strings.TrimSpace(*req.X) }`. -/
def patchTrim (p : Option String) (cur : String) : String :=
  match p with
  | some v => trimGo v
  | none => cur

/-- Go `x != nil && y != nil && *x > *y` for `*int` operands. -/
def oExceeds (x y : Option Int) : Bool :=
  match x, y with
  | some u, some v => decide (v < u)
  | _, _ => false

/-- Go `t != nil && s != nil && a != nil && *t != *s + *a`. -/
def tacklesMismatch (t s a : Option Int) : Bool :=
  match t, s, a with
  | some t, some s, some a => decide (t ≠ s + a)
  | _, _, _ => false

/-- First entry of a Go `nonNegativeFields` slice whose value is present
and negative, returning its display name. -/
def findNegative : List (Option Int × String) → Option String
  | [] => none
  | (v, n) :: rest =>
    match v with
    | some x => if x < 0 then some n else findNegative rest
    | none => findNegative rest

/-- `Except` success test (the Go convention `err == nil`). -/
def isOkE {α : Type} : Except String α → Bool
  | .ok _ => true
  | .error _ => false

/-! ## Data model: models/team.go -/

/-- Go `models.Team` (timestamps omitted: never consulted by the service
logic under verification). -/
structure Team where
  id : Int
  name : String
  city : String
  conference : String
  division : String
deriving DecidableEq, Repr

/-- Go `models.CreateTeamRequest`. -/
structure CreateTeamRequest where
  name : String
  city : String
  conference : String
  division : String
deriving DecidableEq, Repr

/-- Go `models.UpdateTeamRequest` (all-optional patch). -/
structure UpdateTeamRequest where
  name : Option String := none
  city : Option String := none
  conference : Option String := none
  division : Option String := none
deriving DecidableEq, Repr

/-- Go `models.Game`; `gameDate` is the integer instant of the model. -/
structure Game where
  id : Int
  homeTeamID : Int
  awayTeamID : Int
  season : String
  week : Int
  gameDate : Int
  status : String
  homeScore : Option Int
  awayScore : Option Int
deriving DecidableEq, Repr

/-- Go `models.CreateGameRequest`; `status` is a plain Go string whose
zero value `""` means "not provided". -/
structure CreateGameRequest where
  homeTeamID : Int
  awayTeamID : Int
  season : String
  week : Int
  gameDate : Int
  status : String := ""
  homeScore : Option Int := none
  awayScore : Option Int := none
deriving DecidableEq, Repr

/-- Go `models.UpdateGameRequest` (all-optional patch). -/
structure UpdateGameRequest where
  homeTeamID : Option Int := none
  awayTeamID : Option Int := none
  season : Option String := none
  week : Option Int := none
  gameDate : Option Int := none
  status : Option String := none
  homeScore : Option Int := none
  awayScore : Option Int := none
deriving DecidableEq, Repr

/-! ## Team validation: services/team_service.go -/

/-- The `validConferences` slice of team_service.go. -/
def validConferences : List String := ["AFC", "NFC"]

/-- The `validDivisions` slice of team_service.go. -/
def validDivisions : List String := ["North", "South", "East", "West"]

/-- Go `teamService.validateCreateTeamRequest`. -/
def validateCreateTeamRequest (req : CreateTeamRequest) : Except String Unit :=
  if trimGo req.name == "" then .error "team name is required"
  else if trimGo req.city == "" then .error "city is required"
  else if trimGo req.conference == "" then .error "conference is required"
  else if trimGo req.division == "" then .error "division is required"
  else if !(validConferences.any (fun c => eqFold req.conference c)) then
    .error ("conference must be one of: " ++ goStrSlice validConferences)
  else if !(validDivisions.any (fun d => eqFold req.division d)) then
    .error ("division must be one of: " ++ goStrSlice validDivisions)
  else .ok ()

/-- Go `teamService.validateUpdateTeamRequest`. -/
def validateUpdateTeamRequest (req : UpdateTeamRequest) : Except String Unit :=
  if req.name = none ∧ req.city = none ∧ req.conference = none ∧ req.division = none then
    .error "at least one field must be provided for update"
  else if (match req.name with | some n => trimGo n == "" | none => false) then
    .error "team name cannot be empty"
  else if (match req.city with | some c => trimGo c == "" | none => false) then
    .error "city cannot be empty"
  else if (match req.conference with | some c => trimGo c == "" | none => false) then
    .error "conference cannot be empty"
  else if (match req.division with | some d => trimGo d == "" | none => false) then
    .error "division cannot be empty"
  else if (match req.conference with
    | some c => !(validConferences.any (fun v => eqFold c v))
    | none => false) then
    .error ("conference must be one of: " ++ goStrSlice validConferences)
  else if (match req.division with
    | some d => !(validDivisions.any (fun v => eqFold d v))
    | none => false) then
    .error ("division must be one of: " ++ goStrSlice validDivisions)
  else .ok ()

/-! ## Game validation: services/game_service.go -/

/-- The `validStatuses` slice of game_service.go. -/
def validStatuses : List String := ["scheduled", "in_progress", "completed", "cancelled"]

/-- Go `gameService.validateCreateGameRequest`; the two time bounds are
the values `time.Now().AddDate(-1,0,0)` and `time.Now().AddDate(2,0,0)`
the Go code computes at validation time. -/
def validateCreateGameRequest (req : CreateGameRequest)
    (oneYearAgo twoYearsFromNow : Int) : Except String Unit :=
  if req.homeTeamID ≤ 0 then .error "home team ID must be positive"
  else if req.awayTeamID ≤ 0 then .error "away team ID must be positive"
  else if req.season == "" then .error "season is required"
  else if req.week < 1 ∨ req.week > 22 then
    .error ("week must be between 1 and 22, got " ++ toString req.week)
  else if req.gameDate = 0 then .error "game date is required"
  else if req.gameDate < oneYearAgo then
    .error "game date cannot be more than 1 year in the past"
  else if req.gameDate > twoYearsFromNow then
    .error "game date cannot be more than 2 years in the future"
  else if req.status != "" ∧ !(validStatuses.any (fun s => req.status == s)) then
    .error ("invalid status: " ++ req.status ++
      ". Must be one of: scheduled, in_progress, completed, cancelled")
  else if (match req.homeScore with | some s => decide (s < 0) | none => false) then
    .error "home score cannot be negative"
  else if (match req.awayScore with | some s => decide (s < 0) | none => false) then
    .error "away score cannot be negative"
  else .ok ()

/-- Go `gameService.validateUpdateGameRequest`.  Note: unlike the other
three entity families, this validator has no all-nil ("at least one
field") check. -/
def validateUpdateGameRequest (req : UpdateGameRequest)
    (oneYearAgo twoYearsFromNow : Int) : Except String Unit :=
  if (match req.homeTeamID with | some h => decide (h ≤ 0) | none => false) then
    .error "home team ID must be positive"
  else if (match req.awayTeamID with | some a => decide (a ≤ 0) | none => false) then
    .error "away team ID must be positive"
  else if (match req.season with | some s => s == "" | none => false) then
    .error "season cannot be empty"
  else if (match req.week with | some w => decide (w < 1 ∨ w > 22) | none => false) then
    .error ("week must be between 1 and 22, got " ++
      toString (patchV req.week 0))
  else if (match req.gameDate with | some d => decide (d = 0) | none => false) then
    .error "game date cannot be zero"
  else if (match req.gameDate with | some d => decide (d < oneYearAgo) | none => false) then
    .error "game date cannot be more than 1 year in the past"
  else if (match req.gameDate with | some d => decide (d > twoYearsFromNow) | none => false) then
    .error "game date cannot be more than 2 years in the future"
  else if (match req.status with
    | some st => !(validStatuses.any (fun s => st == s))
    | none => false) then
    .error ("invalid status: " ++ patchV req.status "" ++
      ". Must be one of: scheduled, in_progress, completed, cancelled")
  else if (match req.homeScore with | some s => decide (s < 0) | none => false) then
    .error "home score cannot be negative"
  else if (match req.awayScore with | some s => decide (s < 0) | none => false) then
    .error "away score cannot be negative"
  else .ok ()

/-! ## Data model: models/player.go -/

/-- Go `models.Player` (timestamps omitted). -/
structure Player where
  id : Int
  teamID : Int
  firstName : String
  lastName : String
  position : String
  jerseyNumber : Option Int
  height : Option Int
  weight : Option Int
deriving DecidableEq, Repr

/-- Go `models.CreatePlayerRequest`. -/
structure CreatePlayerRequest where
  teamID : Int
  firstName : String
  lastName : String
  position : String
  jerseyNumber : Option Int := none
  height : Option Int := none
  weight : Option Int := none
deriving DecidableEq, Repr

/-- Go `models.UpdatePlayerRequest` (all-optional patch). -/
structure UpdatePlayerRequest where
  firstName : Option String := none
  lastName : Option String := none
  position : Option String := none
  jerseyNumber : Option Int := none
  height : Option Int := none
  weight : Option Int := none
deriving DecidableEq, Repr

/-- Go `models.PlayerStats`: identity, the two foreign keys, and the 35
optional statistic counters (timestamps omitted). -/
structure PlayerStats where
  id : Int
  playerID : Int
  gameID : Int
  passingAttempts : Option Int := none
  passingCompletions : Option Int := none
  passingYards : Option Int := none
  passingTouchdowns : Option Int := none
  passingInterceptions : Option Int := none
  rushingAttempts : Option Int := none
  rushingYards : Option Int := none
  rushingTouchdowns : Option Int := none
  receivingTargets : Option Int := none
  receptions : Option Int := none
  receivingYards : Option Int := none
  receivingTouchdowns : Option Int := none
  fumbles : Option Int := none
  fumblesLost : Option Int := none
  tackles : Option Int := none
  soloTackles : Option Int := none
  assistedTackles : Option Int := none
  sacks : Option Int := none
  defensiveInterceptions : Option Int := none
  passDeflections : Option Int := none
  forcedFumbles : Option Int := none
  fumbleRecoveries : Option Int := none
  defensiveTouchdowns : Option Int := none
  fieldGoalsAttempted : Option Int := none
  fieldGoalsMade : Option Int := none
  extraPointsAttempted : Option Int := none
  extraPointsMade : Option Int := none
  punts : Option Int := none
  puntYards : Option Int := none
  kickReturns : Option Int := none
  kickReturnYards : Option Int := none
  kickReturnTouchdowns : Option Int := none
  puntReturns : Option Int := none
  puntReturnYards : Option Int := none
  puntReturnTouchdowns : Option Int := none
deriving DecidableEq, Repr

/-- Go `models.CreatePlayerStatsRequest`.  Its declaration file is not in
the excerpted sources; the field set is fixed by its uses in
`playerStatsService.CreatePlayerStats` and
`validateCreatePlayerStatsRequest`, which read the two mandatory ids and
exactly the 35 optional counters of `models.PlayerStats`. -/
structure CreatePlayerStatsRequest where
  playerID : Int
  gameID : Int
  passingAttempts : Option Int := none
  passingCompletions : Option Int := none
  passingYards : Option Int := none
  passingTouchdowns : Option Int := none
  passingInterceptions : Option Int := none
  rushingAttempts : Option Int := none
  rushingYards : Option Int := none
  rushingTouchdowns : Option Int := none
  receivingTargets : Option Int := none
  receptions : Option Int := none
  receivingYards : Option Int := none
  receivingTouchdowns : Option Int := none
  fumbles : Option Int := none
  fumblesLost : Option Int := none
  tackles : Option Int := none
  soloTackles : Option Int := none
  assistedTackles : Option Int := none
  sacks : Option Int := none
  defensiveInterceptions : Option Int := none
  passDeflections : Option Int := none
  forcedFumbles : Option Int := none
  fumbleRecoveries : Option Int := none
  defensiveTouchdowns : Option Int := none
  fieldGoalsAttempted : Option Int := none
  fieldGoalsMade : Option Int := none
  extraPointsAttempted : Option Int := none
  extraPointsMade : Option Int := none
  punts : Option Int := none
  puntYards : Option Int := none
  kickReturns : Option Int := none
  kickReturnYards : Option Int := none
  kickReturnTouchdowns : Option Int := none
  puntReturns : Option Int := none
  puntReturnYards : Option Int := none
  puntReturnTouchdowns : Option Int := none
deriving DecidableEq, Repr

/-- Go `models.UpdatePlayerStatsRequest` (all-optional patch).  As with
the create shape, the declaration file is not in the excerpted sources;
the field set is fixed by its uses in `UpdatePlayerStats` and
`validateUpdatePlayerStatsRequest`. -/
structure UpdatePlayerStatsRequest where
  passingAttempts : Option Int := none
  passingCompletions : Option Int := none
  passingYards : Option Int := none
  passingTouchdowns : Option Int := none
  passingInterceptions : Option Int := none
  rushingAttempts : Option Int := none
  rushingYards : Option Int := none
  rushingTouchdowns : Option Int := none
  receivingTargets : Option Int := none
  receptions : Option Int := none
  receivingYards : Option Int := none
  receivingTouchdowns : Option Int := none
  fumbles : Option Int := none
  fumblesLost : Option Int := none
  tackles : Option Int := none
  soloTackles : Option Int := none
  assistedTackles : Option Int := none
  sacks : Option Int := none
  defensiveInterceptions : Option Int := none
  passDeflections : Option Int := none
  forcedFumbles : Option Int := none
  fumbleRecoveries : Option Int := none
  defensiveTouchdowns : Option Int := none
  fieldGoalsAttempted : Option Int := none
  fieldGoalsMade : Option Int := none
  extraPointsAttempted : Option Int := none
  extraPointsMade : Option Int := none
  punts : Option Int := none
  puntYards : Option Int := none
  kickReturns : Option Int := none
  kickReturnYards : Option Int := none
  kickReturnTouchdowns : Option Int := none
  puntReturns : Option Int := none
  puntReturnYards : Option Int := none
  puntReturnTouchdowns : Option Int := none
deriving DecidableEq, Repr

/-! ## Player validation: services/player_service.go -/

/-- Go `playerService.validateCreatePlayerRequest`. -/
def validateCreatePlayerRequest (req : CreatePlayerRequest) : Except String Unit :=
  if req.teamID ≤ 0 then .error "team ID is required and must be positive"
  else if trimGo req.firstName == "" then .error "first name is required"
  else if trimGo req.lastName == "" then .error "last name is required"
  else if trimGo req.position == "" then .error "position is required"
  else if (match req.jerseyNumber with | some j => decide (j < 0 ∨ j > 99) | none => false) then
    .error "jersey number must be between 0 and 99"
  else if (match req.height with | some h => decide (h < 60 ∨ h > 90) | none => false) then
    .error "height must be between 60 and 90 inches"
  else if (match req.weight with | some w => decide (w < 150 ∨ w > 400) | none => false) then
    .error "weight must be between 150 and 400 pounds"
  else .ok ()

/-- Go `playerService.validateUpdatePlayerRequest`. -/
def validateUpdatePlayerRequest (req : UpdatePlayerRequest) : Except String Unit :=
  if req.firstName = none ∧ req.lastName = none ∧ req.position = none ∧
      req.jerseyNumber = none ∧ req.height = none ∧ req.weight = none then
    .error "at least one field must be provided for update"
  else if (match req.firstName with | some f => trimGo f == "" | none => false) then
    .error "first name cannot be empty"
  else if (match req.lastName with | some l => trimGo l == "" | none => false) then
    .error "last name cannot be empty"
  else if (match req.position with | some p => trimGo p == "" | none => false) then
    .error "position cannot be empty"
  else if (match req.jerseyNumber with | some j => decide (j < 0 ∨ j > 99) | none => false) then
    .error "jersey number must be between 0 and 99"
  else if (match req.height with | some h => decide (h < 60 ∨ h > 90) | none => false) then
    .error "height must be between 60 and 90 inches"
  else if (match req.weight with | some w => decide (w < 150 ∨ w > 400) | none => false) then
    .error "weight must be between 150 and 400 pounds"
  else .ok ()

/-! ## PlayerStats validation: services/player_stats_service.go -/

/-- The optional statistic counters of the create request, in the order
the Go all-nil condition of `validateCreatePlayerStatsRequest` lists
them. -/
def createStatFields (r : CreatePlayerStatsRequest) : List (Option Int) :=
  [r.passingAttempts, r.passingCompletions, r.passingYards,
   r.passingTouchdowns, r.passingInterceptions,
   r.rushingAttempts, r.rushingYards, r.rushingTouchdowns,
   r.receivingTargets, r.receptions, r.receivingYards,
   r.receivingTouchdowns, r.fumbles, r.fumblesLost,
   r.tackles, r.soloTackles, r.assistedTackles,
   r.sacks, r.defensiveInterceptions, r.passDeflections,
   r.forcedFumbles, r.fumbleRecoveries, r.defensiveTouchdowns,
   r.fieldGoalsAttempted, r.fieldGoalsMade,
   r.extraPointsAttempted, r.extraPointsMade,
   r.punts, r.puntYards, r.kickReturns,
   r.kickReturnYards, r.kickReturnTouchdowns,
   r.puntReturns, r.puntReturnYards, r.puntReturnTouchdowns]

/-- The optional fields of the update request, in the order the Go
all-nil condition of `validateUpdatePlayerStatsRequest` lists them. -/
def updateStatFields (r : UpdatePlayerStatsRequest) : List (Option Int) :=
  [r.passingAttempts, r.passingCompletions, r.passingYards,
   r.passingTouchdowns, r.passingInterceptions,
   r.rushingAttempts, r.rushingYards, r.rushingTouchdowns,
   r.receivingTargets, r.receptions, r.receivingYards,
   r.receivingTouchdowns, r.fumbles, r.fumblesLost,
   r.tackles, r.soloTackles, r.assistedTackles,
   r.sacks, r.defensiveInterceptions, r.passDeflections,
   r.forcedFumbles, r.fumbleRecoveries, r.defensiveTouchdowns,
   r.fieldGoalsAttempted, r.fieldGoalsMade,
   r.extraPointsAttempted, r.extraPointsMade,
   r.punts, r.puntYards, r.kickReturns,
   r.kickReturnYards, r.kickReturnTouchdowns,
   r.puntReturns, r.puntReturnYards, r.puntReturnTouchdowns]

/-- The `nonNegativeFields` slice of `validateStatConstraints`. -/
def nonNegativeFieldsCreate (r : CreatePlayerStatsRequest) : List (Option Int × String) :=
  [(r.passingAttempts, "passing attempts"),
   (r.passingCompletions, "passing completions"),
   (r.passingYards, "passing yards"),
   (r.passingTouchdowns, "passing touchdowns"),
   (r.passingInterceptions, "passing interceptions"),
   (r.rushingAttempts, "rushing attempts"),
   (r.rushingYards, "rushing yards"),
   (r.rushingTouchdowns, "rushing touchdowns"),
   (r.receivingTargets, "receiving targets"),
   (r.receptions, "receptions"),
   (r.receivingYards, "receiving yards"),
   (r.receivingTouchdowns, "receiving touchdowns"),
   (r.fumbles, "fumbles"),
   (r.fumblesLost, "fumbles lost"),
   (r.tackles, "tackles"),
   (r.soloTackles, "solo tackles"),
   (r.assistedTackles, "assisted tackles"),
   (r.sacks, "sacks"),
   (r.defensiveInterceptions, "defensive interceptions"),
   (r.passDeflections, "pass deflections"),
   (r.forcedFumbles, "forced fumbles"),
   (r.fumbleRecoveries, "fumble recoveries"),
   (r.defensiveTouchdowns, "defensive touchdowns"),
   (r.fieldGoalsAttempted, "field goals attempted"),
   (r.fieldGoalsMade, "field goals made"),
   (r.extraPointsAttempted, "extra points attempted"),
   (r.extraPointsMade, "extra points made"),
   (r.punts, "punts"),
   (r.puntYards, "punt yards"),
   (r.kickReturns, "kick returns"),
   (r.kickReturnYards, "kick return yards"),
   (r.kickReturnTouchdowns, "kick return touchdowns"),
   (r.puntReturns, "punt returns"),
   (r.puntReturnYards, "punt return yards"),
   (r.puntReturnTouchdowns, "punt return touchdowns")]

/-- The `nonNegativeFields` slice of `validateUpdateStatConstraints`. -/
def nonNegativeFieldsUpdate (r : UpdatePlayerStatsRequest) : List (Option Int × String) :=
  [(r.passingAttempts, "passing attempts"),
   (r.passingCompletions, "passing completions"),
   (r.passingYards, "passing yards"),
   (r.passingTouchdowns, "passing touchdowns"),
   (r.passingInterceptions, "passing interceptions"),
   (r.rushingAttempts, "rushing attempts"),
   (r.rushingYards, "rushing yards"),
   (r.rushingTouchdowns, "rushing touchdowns"),
   (r.receivingTargets, "receiving targets"),
   (r.receptions, "receptions"),
   (r.receivingYards, "receiving yards"),
   (r.receivingTouchdowns, "receiving touchdowns"),
   (r.fumbles, "fumbles"),
   (r.fumblesLost, "fumbles lost"),
   (r.tackles, "tackles"),
   (r.soloTackles, "solo tackles"),
   (r.assistedTackles, "assisted tackles"),
   (r.sacks, "sacks"),
   (r.defensiveInterceptions, "defensive interceptions"),
   (r.passDeflections, "pass deflections"),
   (r.forcedFumbles, "forced fumbles"),
   (r.fumbleRecoveries, "fumble recoveries"),
   (r.defensiveTouchdowns, "defensive touchdowns"),
   (r.fieldGoalsAttempted, "field goals attempted"),
   (r.fieldGoalsMade, "field goals made"),
   (r.extraPointsAttempted, "extra points attempted"),
   (r.extraPointsMade, "extra points made"),
   (r.punts, "punts"),
   (r.puntYards, "punt yards"),
   (r.kickReturns, "kick returns"),
   (r.kickReturnYards, "kick return yards"),
   (r.kickReturnTouchdowns, "kick return touchdowns"),
   (r.puntReturns, "punt returns"),
   (r.puntReturnYards, "punt return yards"),
   (r.puntReturnTouchdowns, "punt return touchdowns")]

/-- Go `playerStatsService.validateStatConstraints` (create requests):
the five cross-field rules, each firing only when every operand is
supplied, then the non-negativity sweep. -/
def validateStatConstraints (r : CreatePlayerStatsRequest) : Except String Unit :=
  if oExceeds r.passingCompletions r.passingAttempts then
    .error "passing completions cannot exceed passing attempts"
  else if tacklesMismatch r.tackles r.soloTackles r.assistedTackles then
    .error "total tackles must equal solo tackles plus assisted tackles"
  else if oExceeds r.fieldGoalsMade r.fieldGoalsAttempted then
    .error "field goals made cannot exceed field goals attempted"
  else if oExceeds r.extraPointsMade r.extraPointsAttempted then
    .error "extra points made cannot exceed extra points attempted"
  else if oExceeds r.fumblesLost r.fumbles then
    .error "fumbles lost cannot exceed total fumbles"
  else match findNegative (nonNegativeFieldsCreate r) with
    | some n => .error (n ++ " cannot be negative")
    | none => .ok ()

/-- Go `playerStatsService.validateUpdateStatConstraints` (update
requests): textually the same rules, applied to the patch fields only. -/
def validateUpdateStatConstraints (r : UpdatePlayerStatsRequest) : Except String Unit :=
  if oExceeds r.passingCompletions r.passingAttempts then
    .error "passing completions cannot exceed passing attempts"
  else if tacklesMismatch r.tackles r.soloTackles r.assistedTackles then
    .error "total tackles must equal solo tackles plus assisted tackles"
  else if oExceeds r.fieldGoalsMade r.fieldGoalsAttempted then
    .error "field goals made cannot exceed field goals attempted"
  else if oExceeds r.extraPointsMade r.extraPointsAttempted then
    .error "extra points made cannot exceed extra points attempted"
  else if oExceeds r.fumblesLost r.fumbles then
    .error "fumbles lost cannot exceed total fumbles"
  else match findNegative (nonNegativeFieldsUpdate r) with
    | some n => .error (n ++ " cannot be negative")
    | none => .ok ()

/-- Go `playerStatsService.validateCreatePlayerStatsRequest`: positive
ids, the at-least-one-statistic rule, then the logical constraints. -/
def validateCreatePlayerStatsRequest (r : CreatePlayerStatsRequest) : Except String Unit :=
  if r.playerID ≤ 0 then .error "player ID is required and must be positive"
  else if r.gameID ≤ 0 then .error "game ID is required and must be positive"
  else if (createStatFields r).all (fun f => f = none) then
    .error "at least one statistic must be provided"
  else validateStatConstraints r

/-- Go `playerStatsService.validateUpdatePlayerStatsRequest`: the
at-least-one-field rule, then the logical constraints. -/
def validateUpdatePlayerStatsRequest (r : UpdatePlayerStatsRequest) : Except String Unit :=
  if (updateStatFields r).all (fun f => f = none) then
    .error "at least one field must be provided for update"
  else validateUpdateStatConstraints r

/-- The field-by-field merge of `UpdatePlayerStats` ("Update fields if
provided"): each supplied patch field replaces the stored one. -/
def mergeStats (s : PlayerStats) (r : UpdatePlayerStatsRequest) : PlayerStats :=
  { s with
    passingAttempts := patchO r.passingAttempts s.passingAttempts
    passingCompletions := patchO r.passingCompletions s.passingCompletions
    passingYards := patchO r.passingYards s.passingYards
    passingTouchdowns := patchO r.passingTouchdowns s.passingTouchdowns
    passingInterceptions := patchO r.passingInterceptions s.passingInterceptions
    rushingAttempts := patchO r.rushingAttempts s.rushingAttempts
    rushingYards := patchO r.rushingYards s.rushingYards
    rushingTouchdowns := patchO r.rushingTouchdowns s.rushingTouchdowns
    receivingTargets := patchO r.receivingTargets s.receivingTargets
    receptions := patchO r.receptions s.receptions
    receivingYards := patchO r.receivingYards s.receivingYards
    receivingTouchdowns := patchO r.receivingTouchdowns s.receivingTouchdowns
    fumbles := patchO r.fumbles s.fumbles
    fumblesLost := patchO r.fumblesLost s.fumblesLost
    tackles := patchO r.tackles s.tackles
    soloTackles := patchO r.soloTackles s.soloTackles
    assistedTackles := patchO r.assistedTackles s.assistedTackles
    sacks := patchO r.sacks s.sacks
    defensiveInterceptions := patchO r.defensiveInterceptions s.defensiveInterceptions
    passDeflections := patchO r.passDeflections s.passDeflections
    forcedFumbles := patchO r.forcedFumbles s.forcedFumbles
    fumbleRecoveries := patchO r.fumbleRecoveries s.fumbleRecoveries
    defensiveTouchdowns := patchO r.defensiveTouchdowns s.defensiveTouchdowns
    fieldGoalsAttempted := patchO r.fieldGoalsAttempted s.fieldGoalsAttempted
    fieldGoalsMade := patchO r.fieldGoalsMade s.fieldGoalsMade
    extraPointsAttempted := patchO r.extraPointsAttempted s.extraPointsAttempted
    extraPointsMade := patchO r.extraPointsMade s.extraPointsMade
    punts := patchO r.punts s.punts
    puntYards := patchO r.puntYards s.puntYards
    kickReturns := patchO r.kickReturns s.kickReturns
    kickReturnYards := patchO r.kickReturnYards s.kickReturnYards
    kickReturnTouchdowns := patchO r.kickReturnTouchdowns s.kickReturnTouchdowns
    puntReturns := patchO r.puntReturns s.puntReturns
    puntReturnYards := patchO r.puntReturnYards s.puntReturnYards
    puntReturnTouchdowns := patchO r.puntReturnTouchdowns s.puntReturnTouchdowns }

/-- The entity `CreatePlayerStats` builds from a create request before
handing it to the repository. -/
def statsOfCreateRequest (r : CreatePlayerStatsRequest) : PlayerStats :=
  { id := 0
    playerID := r.playerID
    gameID := r.gameID
    passingAttempts := r.passingAttempts
    passingCompletions := r.passingCompletions
    passingYards := r.passingYards
    passingTouchdowns := r.passingTouchdowns
    passingInterceptions := r.passingInterceptions
    rushingAttempts := r.rushingAttempts
    rushingYards := r.rushingYards
    rushingTouchdowns := r.rushingTouchdowns
    receivingTargets := r.receivingTargets
    receptions := r.receptions
    receivingYards := r.receivingYards
    receivingTouchdowns := r.receivingTouchdowns
    fumbles := r.fumbles
    fumblesLost := r.fumblesLost
    tackles := r.tackles
    soloTackles := r.soloTackles
    assistedTackles := r.assistedTackles
    sacks := r.sacks
    defensiveInterceptions := r.defensiveInterceptions
    passDeflections := r.passDeflections
    forcedFumbles := r.forcedFumbles
    fumbleRecoveries := r.fumbleRecoveries
    defensiveTouchdowns := r.defensiveTouchdowns
    fieldGoalsAttempted := r.fieldGoalsAttempted
    fieldGoalsMade := r.fieldGoalsMade
    extraPointsAttempted := r.extraPointsAttempted
    extraPointsMade := r.extraPointsMade
    punts := r.punts
    puntYards := r.puntYards
    kickReturns := r.kickReturns
    kickReturnYards := r.kickReturnYards
    kickReturnTouchdowns := r.kickReturnTouchdowns
    puntReturns := r.puntReturns
    puntReturnYards := r.puntReturnYards
    puntReturnTouchdowns := r.puntReturnTouchdowns }

/-! ## Repository model

The four SQLite tables behind the repository layer, plus a counter of
successful repository write statements so that "a persistence call was
made" is observable.  `nextID` models the auto-increment key. -/

structure DB where
  teams : List Team
  players : List Player
  games : List Game
  stats : List PlayerStats
  nextID : Int := 1
  writes : Nat := 0
deriving DecidableEq, Repr

/-- Go `teamRepository.Exists`. -/
def teamExists (db : DB) (id : Int) : Bool := db.teams.any (fun t => t.id == id)

/-- Go `playerRepository.Exists`. -/
def playerExists (db : DB) (id : Int) : Bool := db.players.any (fun p => p.id == id)

/-- Go `gameRepository.Exists`. -/
def gameExists (db : DB) (id : Int) : Bool := db.games.any (fun g => g.id == id)

/-- Go `playerStatsRepository.Exists`. -/
def statsExists (db : DB) (id : Int) : Bool := db.stats.any (fun s => s.id == id)

/-- Go `playerStatsRepository.ExistsByPlayerAndGame`. -/
def statsExistsByPlayerAndGame (db : DB) (playerID gameID : Int) : Bool :=
  db.stats.any (fun s => s.playerID == playerID && s.gameID == gameID)

/-- Go `teamRepository.GetByID` (`sql.ErrNoRows` becomes the not-found
message). -/
def teamGetByID (db : DB) (id : Int) : Except String Team :=
  match db.teams.find? (fun t => t.id == id) with
  | some t => .ok t
  | none => .error ("team with ID " ++ toString id ++ " not found")

/-- Go `playerRepository.GetByID`. -/
def playerGetByID (db : DB) (id : Int) : Except String Player :=
  match db.players.find? (fun p => p.id == id) with
  | some p => .ok p
  | none => .error ("player with ID " ++ toString id ++ " not found")

/-- Go `gameRepository.GetByID`. -/
def gameGetByID (db : DB) (id : Int) : Except String Game :=
  match db.games.find? (fun g => g.id == id) with
  | some g => .ok g
  | none => .error ("game with ID " ++ toString id ++ " not found")

/-- Go `playerStatsRepository.GetByID`. -/
def statsGetByID (db : DB) (id : Int) : Except String PlayerStats :=
  match db.stats.find? (fun s => s.id == id) with
  | some s => .ok s
  | none => .error ("player stats with ID " ++ toString id ++ " not found")

/-- Go `playerRepository.GetByTeamID` (row filter). -/
def playersGetByTeamID (db : DB) (teamID : Int) : List Player :=
  db.players.filter (fun p => p.teamID == teamID)

/-- Go `teamRepository.Create`: inserts the row and back-fills the
auto-increment id. -/
def teamRepoCreate (db : DB) (t : Team) : Team × DB :=
  let t := { t with id := db.nextID }
  (t, { db with teams := db.teams ++ [t], nextID := db.nextID + 1,
                writes := db.writes + 1 })

/-- Go `playerRepository.Create`. -/
def playerRepoCreate (db : DB) (p : Player) : Player × DB :=
  let p := { p with id := db.nextID }
  (p, { db with players := db.players ++ [p], nextID := db.nextID + 1,
                writes := db.writes + 1 })

/-- Go `gameRepository.Create`. -/
def gameRepoCreate (db : DB) (g : Game) : Game × DB :=
  let g := { g with id := db.nextID }
  (g, { db with games := db.games ++ [g], nextID := db.nextID + 1,
                writes := db.writes + 1 })

/-- Go `playerStatsRepository.Create`. -/
def statsRepoCreate (db : DB) (s : PlayerStats) : PlayerStats × DB :=
  let s := { s with id := db.nextID }
  (s, { db with stats := db.stats ++ [s], nextID := db.nextID + 1,
                writes := db.writes + 1 })

/-- Go `teamRepository.Update`: zero rows affected is reported as
not-found and stores nothing. -/
def teamRepoUpdate (db : DB) (t : Team) : Except String DB :=
  if db.teams.any (fun u => u.id == t.id) then
    .ok { db with teams := db.teams.map (fun u => if u.id == t.id then t else u),
                  writes := db.writes + 1 }
  else .error ("team with ID " ++ toString t.id ++ " not found")

/-- Go `playerRepository.Update`. -/
def playerRepoUpdate (db : DB) (p : Player) : Except String DB :=
  if db.players.any (fun q => q.id == p.id) then
    .ok { db with players := db.players.map (fun q => if q.id == p.id then p else q),
                  writes := db.writes + 1 }
  else .error ("player with ID " ++ toString p.id ++ " not found")

/-- Go `gameRepository.Update`. -/
def gameRepoUpdate (db : DB) (g : Game) : Except String DB :=
  if db.games.any (fun h => h.id == g.id) then
    .ok { db with games := db.games.map (fun h => if h.id == g.id then g else h),
                  writes := db.writes + 1 }
  else .error ("game with ID " ++ toString g.id ++ " not found")

/-- Go `playerStatsRepository.Update`. -/
def statsRepoUpdate (db : DB) (s : PlayerStats) : Except String DB :=
  if db.stats.any (fun u => u.id == s.id) then
    .ok { db with stats := db.stats.map (fun u => if u.id == s.id then s else u),
                  writes := db.writes + 1 }
  else .error ("player stats with ID " ++ toString s.id ++ " not found")

/-- Go `teamRepository.Delete`. -/
def teamRepoDelete (db : DB) (id : Int) : Except String DB :=
  if db.teams.any (fun t => t.id == id) then
    .ok { db with teams := db.teams.filter (fun t => !(t.id == id)),
                  writes := db.writes + 1 }
  else .error ("team with ID " ++ toString id ++ " not found")

/-- Go `playerRepository.Delete`. -/
def playerRepoDelete (db : DB) (id : Int) : Except String DB :=
  if db.players.any (fun p => p.id == id) then
    .ok { db with players := db.players.filter (fun p => !(p.id == id)),
                  writes := db.writes + 1 }
  else .error ("player with ID " ++ toString id ++ " not found")

/-- Go `gameRepository.Delete`. -/
def gameRepoDelete (db : DB) (id : Int) : Except String DB :=
  if db.games.any (fun g => g.id == id) then
    .ok { db with games := db.games.filter (fun g => !(g.id == id)),
                  writes := db.writes + 1 }
  else .error ("game with ID " ++ toString id ++ " not found")

/-- Go `playerStatsRepository.Delete`. -/
def statsRepoDelete (db : DB) (id : Int) : Except String DB :=
  if db.stats.any (fun s => s.id == id) then
    .ok { db with stats := db.stats.filter (fun s => !(s.id == id)),
                  writes := db.writes + 1 }
  else .error ("player stats with ID " ++ toString id ++ " not found")

/-! ## Service layer

Each operation returns the Go pair (value-or-error, resulting store).
Error strings follow the Go wrapping with `fmt.Errorf("...: %w", err)`. -/

/-- Go `teamService.CreateTeam`. -/
def CreateTeam (db : DB) (req : CreateTeamRequest) : Except String Team × DB :=
  match validateCreateTeamRequest req with
  | .error e => (.error ("validation failed: " ++ e), db)
  | .ok () =>
    let team : Team :=
      { id := 0, name := trimGo req.name, city := trimGo req.city,
        conference := trimGo req.conference, division := trimGo req.division }
    let (t, db) := teamRepoCreate db team
    (.ok t, db)

/-- Go `teamService.UpdateTeam`. -/
def UpdateTeam (db : DB) (id : Int) (req : UpdateTeamRequest) : Except String Team × DB :=
  if id ≤ 0 then (.error ("invalid team ID: " ++ toString id), db)
  else match validateUpdateTeamRequest req with
  | .error e => (.error ("validation failed: " ++ e), db)
  | .ok () =>
    match teamGetByID db id with
    | .error e => (.error ("failed to get team: " ++ e), db)
    | .ok team =>
      let team :=
        { team with
          name := patchTrim req.name team.name
          city := patchTrim req.city team.city
          conference := patchTrim req.conference team.conference
          division := patchTrim req.division team.division }
      match teamRepoUpdate db team with
      | .error e => (.error ("failed to update team: " ++ e), db)
      | .ok db2 => (.ok team, db2)

/-- Go `teamService.DeleteTeam`. -/
def DeleteTeam (db : DB) (id : Int) : Except String Unit × DB :=
  if id ≤ 0 then (.error ("invalid team ID: " ++ toString id), db)
  else if !(teamExists db id) then
    (.error ("team with ID " ++ toString id ++ " not found"), db)
  else match teamRepoDelete db id with
    | .error e => (.error ("failed to delete team: " ++ e), db)
    | .ok db2 => (.ok (), db2)

/-- Go loop in `CreatePlayer` over the team roster: some teammate already
carries the requested jersey number. -/
def jerseyTaken (ps : List Player) (j : Int) : Bool :=
  ps.any (fun p => p.jerseyNumber == some j)

/-- Go loop in `UpdatePlayer`: some teammate other than the player being
updated carries the requested jersey number. -/
def jerseyTakenByOther (ps : List Player) (selfID j : Int) : Bool :=
  ps.any (fun p => !(p.id == selfID) && p.jerseyNumber == some j)

/-- Go `playerService.CreatePlayer`. -/
def CreatePlayer (db : DB) (req : CreatePlayerRequest) : Except String Player × DB :=
  match validateCreatePlayerRequest req with
  | .error e => (.error ("validation failed: " ++ e), db)
  | .ok () =>
    if !(teamExists db req.teamID) then
      (.error ("team with ID " ++ toString req.teamID ++ " not found"), db)
    else match req.jerseyNumber with
    | some j =>
      if jerseyTaken (playersGetByTeamID db req.teamID) j then
        (.error ("jersey number " ++ toString j ++
          " is already taken by another player on this team"), db)
      else
        let player : Player :=
          { id := 0, teamID := req.teamID, firstName := trimGo req.firstName,
            lastName := trimGo req.lastName, position := trimGo req.position,
            jerseyNumber := req.jerseyNumber, height := req.height,
            weight := req.weight }
        let (p, db) := playerRepoCreate db player
        (.ok p, db)
    | none =>
      let player : Player :=
        { id := 0, teamID := req.teamID, firstName := trimGo req.firstName,
          lastName := trimGo req.lastName, position := trimGo req.position,
          jerseyNumber := req.jerseyNumber, height := req.height,
          weight := req.weight }
      let (p, db) := playerRepoCreate db player
      (.ok p, db)

/-- Go `playerService.UpdatePlayer`. -/
def UpdatePlayer (db : DB) (id : Int) (req : UpdatePlayerRequest) : Except String Player × DB :=
  if id ≤ 0 then (.error ("invalid player ID: " ++ toString id), db)
  else match validateUpdatePlayerRequest req with
  | .error e => (.error ("validation failed: " ++ e), db)
  | .ok () =>
    match playerGetByID db id with
    | .error e => (.error ("failed to get player: " ++ e), db)
    | .ok player =>
      let player :=
        { player with
          firstName := patchTrim req.firstName player.firstName
          lastName := patchTrim req.lastName player.lastName
          position := patchTrim req.position player.position }
      match req.jerseyNumber with
      | some j =>
        if jerseyTakenByOther (playersGetByTeamID db player.teamID) id j then
          (.error ("jersey number " ++ toString j ++
            " is already taken by another player on this team"), db)
        else
          let player :=
            { player with jerseyNumber := some j,
                          height := patchO req.height player.height,
                          weight := patchO req.weight player.weight }
          match playerRepoUpdate db player with
          | .error e => (.error ("failed to update player: " ++ e), db)
          | .ok db2 => (.ok player, db2)
      | none =>
        let player :=
          { player with height := patchO req.height player.height,
                        weight := patchO req.weight player.weight }
        match playerRepoUpdate db player with
        | .error e => (.error ("failed to update player: " ++ e), db)
        | .ok db2 => (.ok player, db2)

/-- Go `playerService.DeletePlayer`. -/
def DeletePlayer (db : DB) (id : Int) : Except String Unit × DB :=
  if id ≤ 0 then (.error ("invalid player ID: " ++ toString id), db)
  else if !(playerExists db id) then
    (.error ("player with ID " ++ toString id ++ " not found"), db)
  else match playerRepoDelete db id with
    | .error e => (.error ("failed to delete player: " ++ e), db)
    | .ok db2 => (.ok (), db2)

/-- Go `gameService.CreateGame`. -/
def CreateGame (db : DB) (req : CreateGameRequest)
    (oneYearAgo twoYearsFromNow : Int) : Except String Game × DB :=
  match validateCreateGameRequest req oneYearAgo twoYearsFromNow with
  | .error e => (.error ("validation failed: " ++ e), db)
  | .ok () =>
    if !(teamExists db req.homeTeamID) then
      (.error ("home team with ID " ++ toString req.homeTeamID ++ " not found"), db)
    else if !(teamExists db req.awayTeamID) then
      (.error ("away team with ID " ++ toString req.awayTeamID ++ " not found"), db)
    else if req.homeTeamID = req.awayTeamID then
      (.error "home team and away team cannot be the same", db)
    else
      let status := if req.status == "" then "scheduled" else req.status
      let game : Game :=
        { id := 0, homeTeamID := req.homeTeamID, awayTeamID := req.awayTeamID,
          season := req.season, week := req.week, gameDate := req.gameDate,
          status := status, homeScore := req.homeScore, awayScore := req.awayScore }
      let (g, db) := gameRepoCreate db game
      (.ok g, db)

/-- Tail of Go `gameService.UpdateGame`: hand the merged game to the
repository and return it on success. -/
def finishGameUpdate (db : DB) (game : Game) : Except String Game × DB :=
  match gameRepoUpdate db game with
  | .error e => (.error ("failed to update game: " ++ e), db)
  | .ok db2 => (.ok game, db2)

/-- Go `gameService.UpdateGame`: fetch, validate, patch the two team ids
(with existence probes), re-check home ≠ away on the merged value, patch
the remaining fields, persist. -/
def UpdateGame (db : DB) (id : Int) (req : UpdateGameRequest)
    (oneYearAgo twoYearsFromNow : Int) : Except String Game × DB :=
  if id ≤ 0 then (.error ("invalid game ID: " ++ toString id), db)
  else match gameGetByID db id with
  | .error e => (.error ("failed to get game: " ++ e), db)
  | .ok game =>
    match validateUpdateGameRequest req oneYearAgo twoYearsFromNow with
    | .error e => (.error ("validation failed: " ++ e), db)
    | .ok () =>
      match (match req.homeTeamID with
        | some h =>
          if teamExists db h then .ok { game with homeTeamID := h }
          else .error ("home team with ID " ++ toString h ++ " not found")
        | none => .ok game : Except String Game) with
      | .error e => (.error e, db)
      | .ok game =>
        match (match req.awayTeamID with
          | some a =>
            if teamExists db a then .ok { game with awayTeamID := a }
            else .error ("away team with ID " ++ toString a ++ " not found")
          | none => .ok game : Except String Game) with
        | .error e => (.error e, db)
        | .ok game =>
          if game.homeTeamID = game.awayTeamID then
            (.error "home team and away team cannot be the same", db)
          else
            finishGameUpdate db
              { game with
                season := patchV req.season game.season
                week := patchV req.week game.week
                gameDate := patchV req.gameDate game.gameDate
                status := patchV req.status game.status
                homeScore := patchO req.homeScore game.homeScore
                awayScore := patchO req.awayScore game.awayScore }

/-- Go `gameService.DeleteGame` (the repository error is returned
unwrapped). -/
def DeleteGame (db : DB) (id : Int) : Except String Unit × DB :=
  if id ≤ 0 then (.error ("invalid game ID: " ++ toString id), db)
  else if !(gameExists db id) then
    (.error ("game with ID " ++ toString id ++ " not found"), db)
  else match gameRepoDelete db id with
    | .error e => (.error e, db)
    | .ok db2 => (.ok (), db2)

/-- Go `playerStatsService.CreatePlayerStats`: validation, player
existence probe, (player, game) uniqueness probe, insert.  No probe
consults the games table. -/
def CreatePlayerStats (db : DB) (req : CreatePlayerStatsRequest) :
    Except String PlayerStats × DB :=
  match validateCreatePlayerStatsRequest req with
  | .error e => (.error ("validation failed: " ++ e), db)
  | .ok () =>
    if !(playerExists db req.playerID) then
      (.error ("player with ID " ++ toString req.playerID ++ " not found"), db)
    else if statsExistsByPlayerAndGame db req.playerID req.gameID then
      (.error ("player stats already exist for player " ++ toString req.playerID ++
        " in game " ++ toString req.gameID), db)
    else
      let (s, db) := statsRepoCreate db (statsOfCreateRequest req)
      (.ok s, db)

/-- Go `playerStatsService.UpdatePlayerStats`: validate the raw patch,
fetch the stored row, merge the supplied fields, persist the merged row.
No validation runs after the merge. -/
def UpdatePlayerStats (db : DB) (id : Int) (req : UpdatePlayerStatsRequest) :
    Except String PlayerStats × DB :=
  if id ≤ 0 then (.error ("invalid player stats ID: " ++ toString id), db)
  else match validateUpdatePlayerStatsRequest req with
  | .error e => (.error ("validation failed: " ++ e), db)
  | .ok () =>
    match statsGetByID db id with
    | .error e => (.error ("failed to get player stats: " ++ e), db)
    | .ok stats =>
      let stats := mergeStats stats req
      match statsRepoUpdate db stats with
      | .error e => (.error ("failed to update player stats: " ++ e), db)
      | .ok db2 => (.ok stats, db2)

/-- Go `playerStatsService.DeletePlayerStats`. -/
def DeletePlayerStats (db : DB) (id : Int) : Except String Unit × DB :=
  if id ≤ 0 then (.error ("invalid player stats ID: " ++ toString id), db)
  else if !(statsExists db id) then
    (.error ("player stats with ID " ++ toString id ++ " not found"), db)
  else match statsRepoDelete db id with
    | .error e => (.error ("failed to delete player stats: " ++ e), db)
    | .ok db2 => (.ok (), db2)

/-! ## Concrete fixtures used by witnesses and counterexamples -/

/-- A stored team (id 1). -/
def t1 : Team :=
  { id := 1, name := "Chiefs", city := "Kansas City",
    conference := "AFC", division := "West" }

/-- A second stored team (id 2). -/
def t2 : Team :=
  { id := 2, name := "Raiders", city := "Las Vegas",
    conference := "AFC", division := "West" }

/-- A stored game between the two teams. -/
def g1 : Game :=
  { id := 3, homeTeamID := 1, awayTeamID := 2, season := "2024", week := 1,
    gameDate := 100, status := "scheduled", homeScore := none, awayScore := none }

/-- A stored player on team 1 wearing jersey 15. -/
def p1 : Player :=
  { id := 4, teamID := 1, firstName := "Patrick", lastName := "Mahomes",
    position := "QB", jerseyNumber := some 15, height := some 74, weight := some 225 }

/-- A stored player on team 2 also wearing jersey 15. -/
def p2 : Player :=
  { id := 5, teamID := 2, firstName := "Gardner", lastName := "Minshew",
    position := "QB", jerseyNumber := some 15, height := some 73, weight := some 225 }

/-- A stored stats row for player 4 in game 3 with 10 passing attempts. -/
def s1 : PlayerStats :=
  { id := 6, playerID := 4, gameID := 3, passingAttempts := some 10 }

/-- A second stored player on team 1, wearing jersey 7. -/
def p3 : Player :=
  { id := 8, teamID := 1, firstName := "Harrison", lastName := "Butker",
    position := "K", jerseyNumber := some 7, height := some 76, weight := some 205 }

/-- The store holding the fixtures above. -/
def dbMain : DB :=
  { teams := [t1, t2], players := [p1, p2, p3], games := [g1], stats := [s1],
    nextID := 9, writes := 0 }

/-! ## C2: enum-field acceptance -/

/-- On a status-only game patch, every other check of
`validateUpdateGameRequest` reduces away, leaving the exact-match status
test. -/
theorem statusOnlyReduction (st : String) :
    validateUpdateGameRequest { status := some st } 0 0 =
      (if (!(validStatuses.any (fun s => st == s))) = true then
        .error ("invalid status: " ++ st ++
          ". Must be one of: scheduled, in_progress, completed, cancelled")
      else .ok ()) := rfl

/-- Go's exact-equality loop over `validStatuses` is list membership. -/
theorem anyStatusMem (st : String) :
    validStatuses.any (fun s => st == s) = true ↔ st ∈ validStatuses := by
  rw [List.any_eq_true]
  constructor
  · rintro ⟨x, hx, hbeq⟩
    rw [beq_iff_eq] at hbeq
    exact hbeq ▸ hx
  · intro hm
    exact ⟨st, hm, by simp⟩

/-- On a conference-only team patch, every other check of
`validateUpdateTeamRequest` reduces away, leaving the emptiness and
case-insensitive membership tests on the conference. -/
theorem confOnlyReduction (conf : String) :
    validateUpdateTeamRequest { conference := some conf } =
      (if (trimGo conf == "") = true then .error "conference cannot be empty"
       else if (!(validConferences.any (fun v => eqFold conf v))) = true then
         .error ("conference must be one of: " ++ goStrSlice validConferences)
       else .ok ()) := rfl

/-- On a division-only team patch, every other check of
`validateUpdateTeamRequest` reduces away, leaving the emptiness and
case-insensitive membership tests on the division. -/
theorem divOnlyReduction (d : String) :
    validateUpdateTeamRequest { division := some d } =
      (if (trimGo d == "") = true then .error "division cannot be empty"
       else if (!(validDivisions.any (fun v => eqFold d v))) = true then
         .error ("division must be one of: " ++ goStrSlice validDivisions)
       else .ok ()) := rfl

/-- On a game create request whose other fields are fixed and valid,
every check of `validateCreateGameRequest` except the status test
reduces away; the status test fires only on a non-empty status and
compares with Go `==`. -/
theorem createStatusReduction (st : String) :
    validateCreateGameRequest
      { homeTeamID := 1, awayTeamID := 2, season := "2024", week := 1,
        gameDate := 50, status := st } 0 1000 =
      (if (st != "") = true ∧ (!(validStatuses.any (fun s => st == s))) = true then
        .error ("invalid status: " ++ st ++
          ". Must be one of: scheduled, in_progress, completed, cancelled")
      else .ok ()) := rfl

/-- C2 counterexample: the claim says game status is matched
case-insensitively, but `validateUpdateGameRequest` compares with Go
`==`.  `"Scheduled"` is a case-insensitive match of the member
`"scheduled"`, yet the request is rejected. -/
theorem c2_counterexample_status_case :
    validStatuses.any (fun s => eqFold "Scheduled" s) = true ∧
    validateUpdateGameRequest { status := some "Scheduled" } 0 0 =
      .error "invalid status: Scheduled. Must be one of: scheduled, in_progress, completed, cancelled" := by
  constructor
  · decide
  · rfl

/-- C2 (amended): team conference and division are matched
case-insensitively (Unicode simple folding, as Go `strings.EqualFold`)
against their allowed sets on both create and update; game status is
matched exactly (case-sensitively) on both create and update, where an
empty status string skips the check on create and an absent status
skips it on update; rejection messages list the allowed set. -/
theorem c2_enum_validation :
    (∀ conf div : String,
      validateCreateTeamRequest
        { name := "Chiefs", city := "Kansas City", conference := conf, division := div } =
          .ok () ↔
        ((trimGo conf == "") = false ∧ (trimGo div == "") = false ∧
         validConferences.any (fun v => eqFold conf v) = true ∧
         validDivisions.any (fun v => eqFold div v) = true)) ∧
    (∀ conf : String, trimGo conf ≠ "" → validConferences.any (fun v => eqFold conf v) = false →
      validateCreateTeamRequest
        { name := "Chiefs", city := "Kansas City", conference := conf, division := "West" } =
          .error "conference must be one of: [AFC NFC]") ∧
    (∀ conf : String,
      validateUpdateTeamRequest { conference := some conf } = .ok () ↔
        ((trimGo conf == "") = false ∧
         validConferences.any (fun v => eqFold conf v) = true)) ∧
    (∀ d : String,
      validateUpdateTeamRequest { division := some d } = .ok () ↔
        ((trimGo d == "") = false ∧
         validDivisions.any (fun v => eqFold d v) = true)) ∧
    (∀ conf : String, trimGo conf ≠ "" → validConferences.any (fun v => eqFold conf v) = false →
      validateUpdateTeamRequest { conference := some conf } =
        .error "conference must be one of: [AFC NFC]") ∧
    (∀ d : String, trimGo d ≠ "" → validDivisions.any (fun v => eqFold d v) = false →
      validateUpdateTeamRequest { division := some d } =
        .error "division must be one of: [North South East West]") ∧
    (∀ st : String,
      validateCreateGameRequest
        { homeTeamID := 1, awayTeamID := 2, season := "2024", week := 1,
          gameDate := 50, status := st } 0 1000 = .ok () ↔
        (st = "" ∨ st ∈ validStatuses)) ∧
    (∀ st : String, st ≠ "" → st ∉ validStatuses →
      validateCreateGameRequest
        { homeTeamID := 1, awayTeamID := 2, season := "2024", week := 1,
          gameDate := 50, status := st } 0 1000 =
        .error ("invalid status: " ++ st ++
          ". Must be one of: scheduled, in_progress, completed, cancelled")) ∧
    (∀ st : String,
      validateUpdateGameRequest { status := some st } 0 0 = .ok () ↔ st ∈ validStatuses) ∧
    (∀ st : String, st ∉ validStatuses →
      validateUpdateGameRequest { status := some st } 0 0 =
        .error ("invalid status: " ++ st ++
          ". Must be one of: scheduled, in_progress, completed, cancelled")) := by
  refine ⟨?_, ?_, ?_, ?_, ?_, ?_, ?_, ?_, ?_, ?_⟩
  · intro conf div
    simp only [validateCreateTeamRequest]
    split_ifs with h1 h2 h3 h4 h5 h6
    · exact absurd h1 (by decide)
    · exact absurd h2 (by decide)
    · simp [h3]
    · simp [h3, h4]
    · simp only [Bool.not_eq_true'] at h5
      simp [h3, h4, h5]
    · simp only [Bool.not_eq_true'] at h6
      simp [h3, h4, h6]
    · simp only [Bool.not_eq_true', Bool.not_eq_false] at h5 h6
      simp [h3, h4, h5, h6]
  · intro conf hne hmem
    simp only [validateCreateTeamRequest]
    rw [if_neg (by decide), if_neg (by decide),
      if_neg (by simpa using hne), if_neg (by decide),
      if_pos (by simp [hmem]), goStrSlice]
    rfl
  · intro conf
    rw [confOnlyReduction conf]
    rcases h1 : trimGo conf == "" with _ | _ <;>
      rcases h2 : validConferences.any (fun v => eqFold conf v) with _ | _ <;>
      simp
  · intro d
    rw [divOnlyReduction d]
    rcases h1 : trimGo d == "" with _ | _ <;>
      rcases h2 : validDivisions.any (fun v => eqFold d v) with _ | _ <;>
      simp
  · intro conf hne hmem
    rw [confOnlyReduction conf,
      if_neg (by simp [hne]), if_pos (by simp [hmem]), goStrSlice]
    rfl
  · intro d hne hmem
    rw [divOnlyReduction d,
      if_neg (by simp [hne]), if_pos (by simp [hmem]), goStrSlice]
    rfl
  · intro st
    rw [createStatusReduction st]
    by_cases hst : st = ""
    · subst hst
      rw [if_neg (by decide)]
      simp
    · by_cases hm : st ∈ validStatuses
      · have h2 : validStatuses.any (fun s => st == s) = true := (anyStatusMem st).mpr hm
        simp [h2, hm, hst]
      · have h2 : validStatuses.any (fun s => st == s) = false :=
          Bool.eq_false_iff.mpr (fun hh => hm ((anyStatusMem st).mp hh))
        simp [h2, hm, hst]
  · intro st hne hmem
    rw [createStatusReduction st]
    have h2 : validStatuses.any (fun s => st == s) = false :=
      Bool.eq_false_iff.mpr (fun hh => hmem ((anyStatusMem st).mp hh))
    rw [if_pos ⟨by simp [hne], by simp [h2]⟩]
  · intro st
    rw [statusOnlyReduction st]
    by_cases hm : st ∈ validStatuses
    · have h : validStatuses.any (fun s => st == s) = true := (anyStatusMem st).mpr hm
      simp [h, hm]
    · have h : validStatuses.any (fun s => st == s) = false :=
        Bool.eq_false_iff.mpr (fun hh => hm ((anyStatusMem st).mp hh))
      simp [h, hm]
  · intro st hmem
    rw [statusOnlyReduction st]
    have h : validStatuses.any (fun s => st == s) = false :=
      Bool.eq_false_iff.mpr (fun hh => hmem ((anyStatusMem st).mp hh))
    simp [h]

/-- C2 witness: concrete instantiations of the amended theorem — a
mixed-case conference is accepted on team create; a non-member
conference is rejected with the set-listing message; on team update a
lower-case conference, an upper-case division and a division spelled
with U+017F (which Go folds onto `s`) are accepted while a non-member
division is rejected; on game create the empty status and the exact
member are accepted while a case variant is rejected; on game update
the exact member is accepted. -/
theorem c2_enum_validation_witness :
    (validateCreateTeamRequest
      { name := "Chiefs", city := "Kansas City", conference := "afc", division := "WEST" } =
        .ok ()) ∧
    validateCreateTeamRequest
      { name := "Chiefs", city := "Kansas City", conference := "XFL", division := "West" } =
        .error "conference must be one of: [AFC NFC]" ∧
    validateUpdateTeamRequest { conference := some "nfc" } = .ok () ∧
    validateUpdateTeamRequest { division := some "SOUTH" } = .ok () ∧
    validateUpdateTeamRequest { division := some "Eaſt" } = .ok () ∧
    validateUpdateTeamRequest { division := some "Central" } =
      .error "division must be one of: [North South East West]" ∧
    validateCreateGameRequest
      { homeTeamID := 1, awayTeamID := 2, season := "2024", week := 1,
        gameDate := 50, status := "" } 0 1000 = .ok () ∧
    validateCreateGameRequest
      { homeTeamID := 1, awayTeamID := 2, season := "2024", week := 1,
        gameDate := 50, status := "completed" } 0 1000 = .ok () ∧
    validateCreateGameRequest
      { homeTeamID := 1, awayTeamID := 2, season := "2024", week := 1,
        gameDate := 50, status := "Completed" } 0 1000 =
      .error "invalid status: Completed. Must be one of: scheduled, in_progress, completed, cancelled" ∧
    validateUpdateGameRequest { status := some "completed" } 0 0 = .ok () := by
  refine ⟨?_, ?_, ?_, ?_, ?_, ?_, ?_, ?_, ?_, ?_⟩
  · exact (c2_enum_validation.1 "afc" "WEST").mpr (by decide)
  · exact c2_enum_validation.2.1 "XFL" (by decide) (by decide)
  · exact (c2_enum_validation.2.2.1 "nfc").mpr (by decide)
  · exact (c2_enum_validation.2.2.2.1 "SOUTH").mpr (by decide)
  · exact (c2_enum_validation.2.2.2.1 "Eaſt").mpr (by decide)
  · exact c2_enum_validation.2.2.2.2.2.1 "Central" (by decide) (by decide)
  · exact (c2_enum_validation.2.2.2.2.2.2.1 "").mpr (Or.inl rfl)
  · exact (c2_enum_validation.2.2.2.2.2.2.1 "completed").mpr (by decide)
  · exact c2_enum_validation.2.2.2.2.2.2.2.1 "Completed" (by decide) (by decide)
  · exact (c2_enum_validation.2.2.2.2.2.2.2.2.1 "completed").mpr (by decide)

/-! ## C3: all-nil patches -/

/-- C3 counterexample: an all-nil Game update is not rejected: on the
fixture store it succeeds and performs a repository write (the claim
says every entity family rejects the all-nil patch with the no-op error
and makes no persistence call). -/
theorem c3_counterexample_allnil_game_update :
    UpdateGame dbMain 3 {} 0 0 =
      (.ok g1, { dbMain with writes := dbMain.writes + 1 }) ∧
    validateUpdateGameRequest {} 0 0 = .ok () := by
  constructor
  · rfl
  · rfl

/-- C3 (amended): Team, Player and PlayerStats updates reject the
all-nil patch with the distinct no-op error before any persistence
call; the Game update validator, however, has no such check, so an
all-nil Game update passes validation. -/
theorem c3_allnil_patch_rejection :
    (∀ (db : DB) (id : Int), 0 < id →
      UpdateTeam db id {} =
        (.error "validation failed: at least one field must be provided for update", db)) ∧
    (∀ (db : DB) (id : Int), 0 < id →
      UpdatePlayer db id {} =
        (.error "validation failed: at least one field must be provided for update", db)) ∧
    (∀ (db : DB) (id : Int), 0 < id →
      UpdatePlayerStats db id {} =
        (.error "validation failed: at least one field must be provided for update", db)) ∧
    (∀ (oneYearAgo twoYearsFromNow : Int),
      validateUpdateGameRequest {} oneYearAgo twoYearsFromNow = .ok ()) := by
  refine ⟨?_, ?_, ?_, ?_⟩
  · intro db id h
    unfold UpdateTeam
    rw [if_neg (by omega)]
    rfl
  · intro db id h
    unfold UpdatePlayer
    rw [if_neg (by omega)]
    rfl
  · intro db id h
    unfold UpdatePlayerStats
    rw [if_neg (by omega)]
    rfl
  · intro a b
    rfl

/-- C3 witness: the amended theorem applied to the fixture store at
id 1. -/
theorem c3_allnil_patch_rejection_witness :
    UpdateTeam dbMain 1 {} =
      (.error "validation failed: at least one field must be provided for update", dbMain) ∧
    UpdatePlayer dbMain 1 {} =
      (.error "validation failed: at least one field must be provided for update", dbMain) ∧
    UpdatePlayerStats dbMain 1 {} =
      (.error "validation failed: at least one field must be provided for update", dbMain) :=
  ⟨c3_allnil_patch_rejection.1 dbMain 1 (by decide),
   c3_allnil_patch_rejection.2.1 dbMain 1 (by decide),
   c3_allnil_patch_rejection.2.2.1 dbMain 1 (by decide)⟩

/-! ## C1 / C4: PlayerStats update merge semantics -/

/-- A successful `statsGetByID` returns a stored row carrying the
requested id. -/
theorem statsGetByID_ok (db : DB) (id : Int) (s : PlayerStats)
    (h : statsGetByID db id = .ok s) :
    s ∈ db.stats ∧ (s.id == id) = true := by
  unfold statsGetByID at h
  rcases hf : db.stats.find? (fun u => u.id == id) with _ | u
  · rw [hf] at h
    exact absurd h (by simp)
  · rw [hf] at h
    simp only [Except.ok.injEq] at h
    subst h
    have h2 := List.find?_some (p := fun (u : PlayerStats) => u.id == id) hf
    exact ⟨List.mem_of_find?_eq_some hf, h2⟩

/-- The merge step never changes the row identity. -/
theorem mergeStats_id (s : PlayerStats) (r : UpdatePlayerStatsRequest) :
    (mergeStats s r).id = s.id := rfl

/-- Characterization of `UpdatePlayerStats` on the success path: with a
positive id, a patch accepted by the request-level validator, and a
stored row, the service persists exactly the merged row; no further
validation happens between the merge and the write. -/
theorem updatePlayerStats_merge (db : DB) (id : Int)
    (req : UpdatePlayerStatsRequest) (s0 : PlayerStats)
    (hid : 0 < id) (hval : validateUpdatePlayerStatsRequest req = .ok ())
    (hget : statsGetByID db id = .ok s0) :
    UpdatePlayerStats db id req =
      (.ok (mergeStats s0 req),
       { db with
         stats := db.stats.map
           (fun u => if u.id == (mergeStats s0 req).id then mergeStats s0 req else u),
         writes := db.writes + 1 }) := by
  obtain ⟨hmem, hideq⟩ := statsGetByID_ok db id s0 hget
  have hany : db.stats.any (fun u => u.id == (mergeStats s0 req).id) = true := by
    rw [List.any_eq_true]
    exact ⟨s0, hmem, by rw [mergeStats_id]; simp⟩
  unfold UpdatePlayerStats
  rw [if_neg (by omega), hval, hget]
  unfold statsRepoUpdate
  simp only [hany, if_true]

/-- C1 counterexample: stored row `s1` has 10 passing attempts; the
patch sets 20 passing completions without touching attempts.  The claim
says the merged record is re-checked and the patch rejected; in fact
the update succeeds and the merged record — which violates
completions ≤ attempts — is persisted with a repository write. -/
theorem c1_counterexample_unchecked_merge :
    (UpdatePlayerStats dbMain 6 { passingCompletions := some 20 }).1 =
      .ok { s1 with passingCompletions := some 20 } ∧
    ({ s1 with passingCompletions := some 20 } : PlayerStats).passingAttempts = some 10 ∧
    oExceeds ({ s1 with passingCompletions := some 20 } : PlayerStats).passingCompletions
      ({ s1 with passingCompletions := some 20 } : PlayerStats).passingAttempts = true ∧
    (UpdatePlayerStats dbMain 6 { passingCompletions := some 20 }).2.writes =
      dbMain.writes + 1 ∧
    (UpdatePlayerStats dbMain 6 { passingCompletions := some 20 }).2.stats =
      [{ s1 with passingCompletions := some 20 }] := by
  exact ⟨rfl, rfl, rfl, rfl, rfl⟩

/-- C1 (amended): on a PlayerStats update the cross-field checks run
against the patch alone, before the merge; whenever the patch itself
passes validation and the row exists, the merged record is persisted
with no re-validation, even if the merge violates a cross-field rule. -/
theorem c1_update_checks_patch_not_merge :
    ∀ (db : DB) (id : Int) (req : UpdatePlayerStatsRequest) (s0 : PlayerStats),
      0 < id → validateUpdatePlayerStatsRequest req = .ok () →
      statsGetByID db id = .ok s0 →
      (UpdatePlayerStats db id req).1 = .ok (mergeStats s0 req) ∧
      (UpdatePlayerStats db id req).2.writes = db.writes + 1 := by
  intro db id req s0 hid hval hget
  rw [updatePlayerStats_merge db id req s0 hid hval hget]
  exact ⟨rfl, rfl⟩

/-- C1 witness: the amended theorem at the fixture store. -/
theorem c1_update_checks_patch_not_merge_witness :
    (UpdatePlayerStats dbMain 6 { passingYards := some 300 }).1 =
      .ok (mergeStats s1 { passingYards := some 300 }) ∧
    (UpdatePlayerStats dbMain 6 { passingYards := some 300 }).2.writes =
      dbMain.writes + 1 :=
  c1_update_checks_patch_not_merge dbMain 6 { passingYards := some 300 } s1
    (by decide) rfl rfl

/-- C4: a patch supplying `passing_completions` but not
`passing_attempts` passes validation (given the value is non-negative)
and is merged and persisted without any comparison against the stored
attempts value — the stored row `s0` is arbitrary. -/
theorem c4_completions_without_attempts_not_crosschecked :
    ∀ (db : DB) (id : Int) (s0 : PlayerStats) (c : Int),
      0 < id → 0 ≤ c → statsGetByID db id = .ok s0 →
      (UpdatePlayerStats db id { passingCompletions := some c }).1 =
        .ok { s0 with passingCompletions := some c } := by
  intro db id s0 c hid hc hget
  have red : validateUpdatePlayerStatsRequest { passingCompletions := some c } =
      (match (if c < 0 then some "passing completions" else (none : Option String)) with
       | some n => .error (n ++ " cannot be negative")
       | none => .ok ()) := rfl
  have hval : validateUpdatePlayerStatsRequest { passingCompletions := some c } = .ok () := by
    rw [red, if_neg (by omega)]
  rw [updatePlayerStats_merge db id _ s0 hid hval hget]
  rfl

/-- C4 witness: on the fixture store, where the stored row has only 10
passing attempts, a patch of 20 completions (with no attempts in the
patch) is accepted. -/
theorem c4_completions_without_attempts_witness :
    (UpdatePlayerStats dbMain 6 { passingCompletions := some 20 }).1 =
      .ok { s1 with passingCompletions := some 20 } :=
  c4_completions_without_attempts_not_crosschecked dbMain 6 s1 20
    (by decide) (by decide) rfl

/-! ## C5: home team must differ from away team -/

/-- A successful `finishGameUpdate` returns exactly the merged game it
was asked to persist. -/
theorem finishGameUpdate_ok (db : DB) (game g : Game)
    (h : (finishGameUpdate db game).1 = .ok g) : game = g := by
  unfold finishGameUpdate at h
  cases hX : gameRepoUpdate db game with
  | error e =>
    rw [hX] at h
    exact absurd h (by simp)
  | ok db2 =>
    rw [hX] at h
    simpa using h

/-- C5: a Game create whose two team ids coincide always fails and
leaves the store untouched, whatever the other fields; a Game update
can only succeed when the merged record has distinct team ids (the
check runs after the team-id patches); and on the fixture store an
update changing only the away side onto the home side is rejected with
the dedicated message. -/
theorem c5_same_team_rejected :
    (∀ (db : DB) (req : CreateGameRequest) (y z : Int),
      req.homeTeamID = req.awayTeamID →
      ∃ e, CreateGame db req y z = (.error e, db)) ∧
    (∀ (db : DB) (id : Int) (req : UpdateGameRequest) (y z : Int) (g : Game),
      (UpdateGame db id req y z).1 = .ok g → g.homeTeamID ≠ g.awayTeamID) ∧
    UpdateGame dbMain 3 { awayTeamID := some 1 } 0 0 =
      (.error "home team and away team cannot be the same", dbMain) := by
  refine ⟨?_, ?_, ?_⟩
  · intro db req y z h
    cases hv : validateCreateGameRequest req y z with
    | error e =>
      refine ⟨"validation failed: " ++ e, ?_⟩
      unfold CreateGame
      rw [hv]
    | ok u =>
      cases u
      rcases h1 : teamExists db req.homeTeamID with _ | _
      · refine ⟨"home team with ID " ++ toString req.homeTeamID ++ " not found", ?_⟩
        unfold CreateGame
        rw [hv]
        simp [h1]
      · refine ⟨"home team and away team cannot be the same", ?_⟩
        unfold CreateGame
        rw [hv]
        simp [h1, ← h]
  · intro db id req y z g h
    unfold UpdateGame at h
    repeat' split at h
    all_goals first
      | (have hg := finishGameUpdate_ok _ _ _ h
         subst hg
         simp_all)
      | simp_all
  · rfl

/-- C5 witness: the two universally quantified parts instantiated on
the fixture store. -/
theorem c5_same_team_rejected_witness :
    (∃ e, CreateGame dbMain
      { homeTeamID := 1, awayTeamID := 1, season := "2024", week := 1, gameDate := 50 }
      0 1000 = (.error e, dbMain)) ∧
    ({ g1 with season := "2025" } : Game).homeTeamID ≠
      ({ g1 with season := "2025" } : Game).awayTeamID :=
  ⟨c5_same_team_rejected.1 dbMain _ 0 1000 rfl,
   c5_same_team_rejected.2.1 dbMain 3 { season := some "2025" } 0 1000 _ rfl⟩

/-! ## C6: PlayerStats create probes -/

/-- C6: for a PlayerStats create request that passes validation, the
service rejects with the not-found message naming the player id when
the player probe fails, rejects with the already-exist message when the
(player, game) uniqueness probe fails, and only when both probes pass
inserts the row; the outcome is independent of the games table (no
game-existence probe). -/
theorem c6_playerstats_create_probes :
    ∀ (db : DB) (req : CreatePlayerStatsRequest),
      validateCreatePlayerStatsRequest req = .ok () →
      (playerExists db req.playerID = false →
        CreatePlayerStats db req =
          (.error ("player with ID " ++ toString req.playerID ++ " not found"), db)) ∧
      (playerExists db req.playerID = true →
        statsExistsByPlayerAndGame db req.playerID req.gameID = true →
        CreatePlayerStats db req =
          (.error ("player stats already exist for player " ++ toString req.playerID ++
            " in game " ++ toString req.gameID), db)) ∧
      (playerExists db req.playerID = true →
        statsExistsByPlayerAndGame db req.playerID req.gameID = false →
        (CreatePlayerStats db req).1 = .ok { statsOfCreateRequest req with id := db.nextID } ∧
        (CreatePlayerStats db req).2.stats =
          db.stats ++ [{ statsOfCreateRequest req with id := db.nextID }] ∧
        (CreatePlayerStats db req).2.writes = db.writes + 1) ∧
      (∀ gs : List Game,
        (CreatePlayerStats { db with games := gs } req).1 = (CreatePlayerStats db req).1) := by
  intro db req hval
  refine ⟨?_, ?_, ?_, ?_⟩
  · intro hp
    unfold CreatePlayerStats
    rw [hval]
    simp [hp]
  · intro hp hx
    unfold CreatePlayerStats
    rw [hval]
    simp [hp, hx]
  · intro hp hx
    unfold CreatePlayerStats
    rw [hval]
    simp [hp, hx, statsRepoCreate]
  · intro gs
    unfold CreatePlayerStats
    cases hv : validateCreatePlayerStatsRequest req with
    | error e => rfl
    | ok u =>
      cases u
      have e1 : playerExists { db with games := gs } req.playerID =
          playerExists db req.playerID := rfl
      have e2 : statsExistsByPlayerAndGame { db with games := gs } req.playerID req.gameID =
          statsExistsByPlayerAndGame db req.playerID req.gameID := rfl
      rw [e1, e2]
      rcases hp : playerExists db req.playerID with _ | _
      · simp
      · rcases hx : statsExistsByPlayerAndGame db req.playerID req.gameID with _ | _
        · simp [statsRepoCreate]
        · simp

/-- C6 witness: on the fixture store a fully valid request for a
missing player id is rejected with the not-found message; the duplicate
(player 4, game 3) pair is rejected with the already-exist message; and
the fresh pair (player 5, game 3) is inserted. -/
theorem c6_playerstats_create_probes_witness :
    CreatePlayerStats dbMain { playerID := 17, gameID := 3, tackles := some 2 } =
      (.error "player with ID 17 not found", dbMain) ∧
    CreatePlayerStats dbMain { playerID := 4, gameID := 3, tackles := some 2 } =
      (.error "player stats already exist for player 4 in game 3", dbMain) ∧
    (CreatePlayerStats dbMain { playerID := 5, gameID := 3, tackles := some 2 }).1 =
      .ok { statsOfCreateRequest { playerID := 5, gameID := 3, tackles := some 2 } with
            id := dbMain.nextID } :=
  ⟨(c6_playerstats_create_probes dbMain
      { playerID := 17, gameID := 3, tackles := some 2 } rfl).1 rfl,
   (c6_playerstats_create_probes dbMain
      { playerID := 4, gameID := 3, tackles := some 2 } rfl).2.1 rfl rfl,
   ((c6_playerstats_create_probes dbMain
      { playerID := 5, gameID := 3, tackles := some 2 } rfl).2.2.1 rfl rfl).1⟩

/-! ## C7: jersey-number uniqueness -/

/-- A successful `playerGetByID` returns a stored row carrying the
requested id. -/
theorem playerGetByID_ok (db : DB) (id : Int) (p : Player)
    (h : playerGetByID db id = .ok p) :
    p ∈ db.players ∧ (p.id == id) = true := by
  unfold playerGetByID at h
  rcases hf : db.players.find? (fun q => q.id == id) with _ | q
  · rw [hf] at h
    exact absurd h (by simp)
  · rw [hf] at h
    simp only [Except.ok.injEq] at h
    subst h
    have h2 := List.find?_some (p := fun (q : Player) => q.id == id) hf
    exact ⟨List.mem_of_find?_eq_some hf, h2⟩

/-- The roster scan of `CreatePlayer` as a statement about the stored
players. -/
theorem jerseyTaken_iff (db : DB) (tid j : Int) :
    jerseyTaken (playersGetByTeamID db tid) j = true ↔
      ∃ p, p ∈ db.players ∧ p.teamID = tid ∧ p.jerseyNumber = some j := by
  unfold jerseyTaken playersGetByTeamID
  rw [List.any_eq_true]
  constructor
  · rintro ⟨p, hp, hj⟩
    rw [List.mem_filter] at hp
    have ht := hp.2
    rw [beq_iff_eq] at ht hj
    exact ⟨p, hp.1, ht, hj⟩
  · rintro ⟨p, hp, ht, hj⟩
    exact ⟨p, List.mem_filter.mpr ⟨hp, by rw [ht]; simp⟩, by rw [hj]; simp⟩

/-- The roster scan of `UpdatePlayer` (excluding the updated player) as
a statement about the stored players. -/
theorem jerseyTakenByOther_iff (db : DB) (tid selfID j : Int) :
    jerseyTakenByOther (playersGetByTeamID db tid) selfID j = true ↔
      ∃ q, q ∈ db.players ∧ q.teamID = tid ∧ ¬(q.id = selfID) ∧ q.jerseyNumber = some j := by
  unfold jerseyTakenByOther playersGetByTeamID
  rw [List.any_eq_true]
  constructor
  · rintro ⟨q, hq, hcond⟩
    rw [List.mem_filter] at hq
    have ht := hq.2
    rw [beq_iff_eq] at ht
    rw [Bool.and_eq_true, Bool.not_eq_true', beq_eq_false_iff_ne, ne_eq] at hcond
    have hj := hcond.2
    rw [beq_iff_eq] at hj
    exact ⟨q, hq.1, ht, hcond.1, hj⟩
  · rintro ⟨q, hq, ht, hne, hj⟩
    refine ⟨q, List.mem_filter.mpr ⟨hq, by rw [ht]; simp⟩, ?_⟩
    rw [Bool.and_eq_true, Bool.not_eq_true', beq_eq_false_iff_ne, ne_eq]
    exact ⟨hne, by rw [hj]; simp⟩

/-- C7: creating a player whose jersey number is already worn on the
requested team is rejected with the conflict message, while the scan
only ranges over that team's roster (a clash on another team does not
block); updating a player's jersey number scans the player's current
teammates excluding the player itself. -/
theorem c7_jersey_uniqueness :
    (∀ (db : DB) (req : CreatePlayerRequest) (j : Int),
      validateCreatePlayerRequest req = .ok () → teamExists db req.teamID = true →
      req.jerseyNumber = some j →
      ((∃ p, p ∈ db.players ∧ p.teamID = req.teamID ∧ p.jerseyNumber = some j) →
        CreatePlayer db req =
          (.error ("jersey number " ++ toString j ++
            " is already taken by another player on this team"), db)) ∧
      ((∀ p, p ∈ db.players → p.teamID = req.teamID → p.jerseyNumber ≠ some j) →
        isOkE (CreatePlayer db req).1 = true)) ∧
    (∀ (db : DB) (id : Int) (req : UpdatePlayerRequest) (p0 : Player) (j : Int),
      0 < id → validateUpdatePlayerRequest req = .ok () →
      playerGetByID db id = .ok p0 → req.jerseyNumber = some j →
      ((∃ q, q ∈ db.players ∧ q.teamID = p0.teamID ∧ ¬(q.id = id) ∧ q.jerseyNumber = some j) →
        (UpdatePlayer db id req).1 =
          .error ("jersey number " ++ toString j ++
            " is already taken by another player on this team")) ∧
      ((∀ q, q ∈ db.players → q.teamID = p0.teamID → ¬(q.id = id) → q.jerseyNumber ≠ some j) →
        isOkE (UpdatePlayer db id req).1 = true)) := by
  constructor
  · intro db req j hval hteam hj
    constructor
    · intro hex
      have htaken : jerseyTaken (playersGetByTeamID db req.teamID) j = true :=
        (jerseyTaken_iff db req.teamID j).mpr hex
      unfold CreatePlayer
      rw [hval, hj]
      simp [hteam, htaken]
    · intro hall
      have htaken : jerseyTaken (playersGetByTeamID db req.teamID) j = false := by
        rw [Bool.eq_false_iff]
        intro hh
        obtain ⟨p, hp, ht, hjj⟩ := (jerseyTaken_iff db req.teamID j).mp hh
        exact hall p hp ht hjj
      unfold CreatePlayer
      rw [hval, hj]
      simp [hteam, htaken, playerRepoCreate, isOkE]
  · intro db id req p0 j hid hval hget hj
    constructor
    · intro hex
      have htaken : jerseyTakenByOther (playersGetByTeamID db p0.teamID) id j = true :=
        (jerseyTakenByOther_iff db p0.teamID id j).mpr hex
      unfold UpdatePlayer
      rw [if_neg (by omega), hval, hget, hj]
      dsimp only
      simp [htaken]
    · intro hall
      have htaken : jerseyTakenByOther (playersGetByTeamID db p0.teamID) id j = false := by
        rw [Bool.eq_false_iff]
        intro hh
        obtain ⟨q, hq, ht, hne, hjj⟩ := (jerseyTakenByOther_iff db p0.teamID id j).mp hh
        exact hall q hq ht hne hjj
      obtain ⟨hmem, hideq⟩ := playerGetByID_ok db id p0 hget
      have hany : ∀ pl : Player, pl.id = p0.id →
          db.players.any (fun q => q.id == pl.id) = true := by
        intro pl hpl
        rw [List.any_eq_true]
        exact ⟨p0, hmem, by rw [hpl]; simp⟩
      unfold UpdatePlayer
      rw [if_neg (by omega), hval, hget, hj]
      dsimp only
      unfold playerRepoUpdate
      simp [htaken, hany _ rfl, isOkE]

/-- C7 witness: on the fixture store (player 4 wears 15 on team 1,
player 5 wears 15 on team 2, player 8 wears 7 on team 1): creating a
jersey-15 player on team 1 is rejected with the conflict message while
creating a jersey-15 player on team 2 would clash too, so acceptance on
a different team is shown with team 2 free of jersey 7; an update that
re-assigns player 4 its own jersey 15 passes (scan excludes itself);
an update moving player 4 onto teammate 8's jersey 7 is rejected. -/
theorem c7_jersey_uniqueness_witness :
    CreatePlayer dbMain
      { teamID := 1, firstName := "Joe", lastName := "Smith", position := "WR",
        jerseyNumber := some 15 } =
      (.error "jersey number 15 is already taken by another player on this team", dbMain) ∧
    isOkE (CreatePlayer dbMain
      { teamID := 2, firstName := "Joe", lastName := "Smith", position := "WR",
        jerseyNumber := some 7 }).1 = true ∧
    isOkE (UpdatePlayer dbMain 4 { jerseyNumber := some 15 }).1 = true ∧
    (UpdatePlayer dbMain 4 { jerseyNumber := some 7 }).1 =
      .error "jersey number 7 is already taken by another player on this team" := by
  refine ⟨?_, ?_, ?_, ?_⟩
  · exact ((c7_jersey_uniqueness.1 dbMain
      { teamID := 1, firstName := "Joe", lastName := "Smith", position := "WR",
        jerseyNumber := some 15 } 15 rfl rfl rfl).1
      ⟨p1, by simp [dbMain], rfl, rfl⟩)
  · refine (c7_jersey_uniqueness.1 dbMain
      { teamID := 2, firstName := "Joe", lastName := "Smith", position := "WR",
        jerseyNumber := some 7 } 7 rfl rfl rfl).2 ?_
    intro p hp ht
    simp only [dbMain, List.mem_cons, List.not_mem_nil, or_false] at hp
    rcases hp with h | h | h
    · subst h; simp [p1] at ht
    · subst h; decide
    · subst h; simp [p3] at ht
  · refine (c7_jersey_uniqueness.2 dbMain 4 { jerseyNumber := some 15 } p1 15
      (by decide) rfl rfl rfl).2 ?_
    intro q hq ht hne
    simp only [dbMain, List.mem_cons, List.not_mem_nil, or_false] at hq
    rcases hq with h | h | h
    · subst h; simp [p1] at hne
    · subst h; simp [p2, p1] at ht
    · subst h; decide
  · refine (c7_jersey_uniqueness.2 dbMain 4 { jerseyNumber := some 7 } p1 7
      (by decide) rfl rfl rfl).1 ?_
    exact ⟨p3, by simp [dbMain], rfl, by decide, rfl⟩

/-! ## C8: tackles equation -/

/-- C8: with all three tackle fields supplied and non-negative, both the
create and the update validator accept exactly when
tackles = solo + assisted; on a mismatch both constraint checkers
produce the dedicated message; with one of the three absent the check
is skipped. -/
theorem c8_tackles_rule :
    ∀ t s a : Int, 0 ≤ t → 0 ≤ s → 0 ≤ a →
      ((validateCreatePlayerStatsRequest
        { playerID := 4, gameID := 3, tackles := some t, soloTackles := some s,
          assistedTackles := some a } = .ok ()) ↔ t = s + a) ∧
      ((validateUpdatePlayerStatsRequest
        { tackles := some t, soloTackles := some s, assistedTackles := some a } =
          .ok ()) ↔ t = s + a) ∧
      (t ≠ s + a →
        validateStatConstraints
          { playerID := 4, gameID := 3, tackles := some t, soloTackles := some s,
            assistedTackles := some a } =
          .error "total tackles must equal solo tackles plus assisted tackles" ∧
        validateUpdateStatConstraints
          { tackles := some t, soloTackles := some s, assistedTackles := some a } =
          .error "total tackles must equal solo tackles plus assisted tackles") ∧
      validateCreatePlayerStatsRequest
        { playerID := 4, gameID := 3, tackles := some t, soloTackles := some s } =
          .ok () := by
  intro t s a ht hs ha
  have hnt : ¬ t < 0 := by omega
  have hns : ¬ s < 0 := by omega
  have hna : ¬ a < 0 := by omega
  have redC : validateCreatePlayerStatsRequest
      { playerID := 4, gameID := 3, tackles := some t, soloTackles := some s,
        assistedTackles := some a } =
      (if (tacklesMismatch (some t) (some s) (some a)) = true then
        .error "total tackles must equal solo tackles plus assisted tackles"
      else match (if t < 0 then some "tackles" else if s < 0 then some "solo tackles"
            else if a < 0 then some "assisted tackles" else (none : Option String)) with
        | some n => .error (n ++ " cannot be negative")
        | none => .ok ()) := rfl
  have redU : validateUpdatePlayerStatsRequest
      { tackles := some t, soloTackles := some s, assistedTackles := some a } =
      (if (tacklesMismatch (some t) (some s) (some a)) = true then
        .error "total tackles must equal solo tackles plus assisted tackles"
      else match (if t < 0 then some "tackles" else if s < 0 then some "solo tackles"
            else if a < 0 then some "assisted tackles" else (none : Option String)) with
        | some n => .error (n ++ " cannot be negative")
        | none => .ok ()) := rfl
  have redSC : validateStatConstraints
      { playerID := 4, gameID := 3, tackles := some t, soloTackles := some s,
        assistedTackles := some a } =
      (if (tacklesMismatch (some t) (some s) (some a)) = true then
        .error "total tackles must equal solo tackles plus assisted tackles"
      else match (if t < 0 then some "tackles" else if s < 0 then some "solo tackles"
            else if a < 0 then some "assisted tackles" else (none : Option String)) with
        | some n => .error (n ++ " cannot be negative")
        | none => .ok ()) := rfl
  have redSU : validateUpdateStatConstraints
      { tackles := some t, soloTackles := some s, assistedTackles := some a } =
      (if (tacklesMismatch (some t) (some s) (some a)) = true then
        .error "total tackles must equal solo tackles plus assisted tackles"
      else match (if t < 0 then some "tackles" else if s < 0 then some "solo tackles"
            else if a < 0 then some "assisted tackles" else (none : Option String)) with
        | some n => .error (n ++ " cannot be negative")
        | none => .ok ()) := rfl
  have redC2 : validateCreatePlayerStatsRequest
      { playerID := 4, gameID := 3, tackles := some t, soloTackles := some s } =
      (match (if t < 0 then some "tackles" else if s < 0 then some "solo tackles"
            else (none : Option String)) with
        | some n => .error (n ++ " cannot be negative")
        | none => .ok ()) := rfl
  refine ⟨?_, ?_, ?_, ?_⟩
  · rw [redC]
    by_cases he : t = s + a
    · have hm : tacklesMismatch (some t) (some s) (some a) = false := by
        simp [tacklesMismatch, he]
      simp only [hm, Bool.false_eq_true, if_false, hnt, hns, hna, if_neg]
      simp
      exact he
    · have hm : tacklesMismatch (some t) (some s) (some a) = true := by
        simp [tacklesMismatch, he]
      simp only [hm, if_true]
      simp
      exact he
  · rw [redU]
    by_cases he : t = s + a
    · have hm : tacklesMismatch (some t) (some s) (some a) = false := by
        simp [tacklesMismatch, he]
      simp only [hm, Bool.false_eq_true, if_false, hnt, hns, hna, if_neg]
      simp
      exact he
    · have hm : tacklesMismatch (some t) (some s) (some a) = true := by
        simp [tacklesMismatch, he]
      simp only [hm, if_true]
      simp
      exact he
  · intro he
    have hm : tacklesMismatch (some t) (some s) (some a) = true := by
      simp [tacklesMismatch, he]
    rw [redSC, redSU]
    simp [hm]
  · rw [redC2]
    simp [hnt, hns]

/-- C8 witness: 3 = 1 + 2 accepted on create; 4 ≠ 1 + 2 produces the
dedicated message in both constraint checkers; tackles with solo but no
assisted is accepted. -/
theorem c8_tackles_rule_witness :
    validateCreatePlayerStatsRequest
      { playerID := 4, gameID := 3, tackles := some 3, soloTackles := some 1,
        assistedTackles := some 2 } = .ok () ∧
    validateStatConstraints
      { playerID := 4, gameID := 3, tackles := some 4, soloTackles := some 1,
        assistedTackles := some 2 } =
      .error "total tackles must equal solo tackles plus assisted tackles" ∧
    validateUpdateStatConstraints
      { tackles := some 4, soloTackles := some 1, assistedTackles := some 2 } =
      .error "total tackles must equal solo tackles plus assisted tackles" ∧
    validateCreatePlayerStatsRequest
      { playerID := 4, gameID := 3, tackles := some 5, soloTackles := some 1 } = .ok () :=
  ⟨((c8_tackles_rule 3 1 2 (by decide) (by decide) (by decide)).1).mpr (by decide),
   ((c8_tackles_rule 4 1 2 (by decide) (by decide) (by decide)).2.2.1 (by decide)).1,
   ((c8_tackles_rule 4 1 2 (by decide) (by decide) (by decide)).2.2.1 (by decide)).2,
   (c8_tackles_rule 5 1 0 (by decide) (by decide) (by decide)).2.2.2⟩

/-! ## C9: empty create shape -/

/-- C9 counterexample: the create shape carries 35 optional statistic
counters, not the thirty-six the claim asserts. -/
theorem c9_counterexample_stat_field_count :
    (createStatFields { playerID := 4, gameID := 3 }).length = 35 ∧
    ¬ (createStatFields { playerID := 4, gameID := 3 }).length = 36 := by
  constructor
  · rfl
  · decide

/-- C9 (amended): the create request has 35 optional statistic
counters, and a create supplying none of them (valid ids only) is
rejected with the at-least-one-statistic error before any probe or
write, for every store — in particular also when the ids reference
existing rows. -/
theorem c9_empty_create_rejected :
    (∀ r : CreatePlayerStatsRequest, (createStatFields r).length = 35) ∧
    (∀ (db : DB) (pid gid : Int), 0 < pid → 0 < gid →
      CreatePlayerStats db { playerID := pid, gameID := gid } =
        (.error "validation failed: at least one statistic must be provided", db)) := by
  constructor
  · intro r
    rfl
  · intro db pid gid hp hg
    have hv : validateCreatePlayerStatsRequest { playerID := pid, gameID := gid } =
        .error "at least one statistic must be provided" := by
      unfold validateCreatePlayerStatsRequest
      rw [if_neg (show ¬ (pid ≤ 0) by omega), if_neg (show ¬ (gid ≤ 0) by omega)]
      rfl
    unfold CreatePlayerStats
    rw [hv]
    rfl

/-- C9 witness: on the fixture store, player 5 and game 3 exist, yet
the all-absent create is rejected. -/
theorem c9_empty_create_rejected_witness :
    CreatePlayerStats dbMain { playerID := 5, gameID := 3 } =
      (.error "validation failed: at least one statistic must be provided", dbMain) :=
  c9_empty_create_rejected.2 dbMain 5 3 (by decide) (by decide)

/-! ## C10: rejected requests leave the store unchanged -/

/-- Every `CreateTeam` either leaves the store untouched or succeeds. -/
theorem createTeam_atomic (db : DB) (req : CreateTeamRequest) :
    (CreateTeam db req).2 = db ∨ isOkE (CreateTeam db req).1 = true := by
  unfold CreateTeam
  repeat' (first | split | dsimp only)
  all_goals first | exact Or.inl rfl | exact Or.inr rfl

/-- Every `UpdateTeam` either leaves the store untouched or succeeds. -/
theorem updateTeam_atomic (db : DB) (id : Int) (req : UpdateTeamRequest) :
    (UpdateTeam db id req).2 = db ∨ isOkE (UpdateTeam db id req).1 = true := by
  unfold UpdateTeam
  repeat' (first | split | dsimp only)
  all_goals first | exact Or.inl rfl | exact Or.inr rfl

/-- Every `DeleteTeam` either leaves the store untouched or succeeds. -/
theorem deleteTeam_atomic (db : DB) (id : Int) :
    (DeleteTeam db id).2 = db ∨ isOkE (DeleteTeam db id).1 = true := by
  unfold DeleteTeam
  repeat' (first | split | dsimp only)
  all_goals first | exact Or.inl rfl | exact Or.inr rfl

/-- Every `CreatePlayer` either leaves the store untouched or succeeds. -/
theorem createPlayer_atomic (db : DB) (req : CreatePlayerRequest) :
    (CreatePlayer db req).2 = db ∨ isOkE (CreatePlayer db req).1 = true := by
  unfold CreatePlayer
  repeat' (first | split | dsimp only)
  all_goals first | exact Or.inl rfl | exact Or.inr rfl

/-- Every `UpdatePlayer` either leaves the store untouched or succeeds. -/
theorem updatePlayer_atomic (db : DB) (id : Int) (req : UpdatePlayerRequest) :
    (UpdatePlayer db id req).2 = db ∨ isOkE (UpdatePlayer db id req).1 = true := by
  unfold UpdatePlayer
  repeat' (first | split | dsimp only)
  all_goals first | exact Or.inl rfl | exact Or.inr rfl

/-- Every `DeletePlayer` either leaves the store untouched or succeeds. -/
theorem deletePlayer_atomic (db : DB) (id : Int) :
    (DeletePlayer db id).2 = db ∨ isOkE (DeletePlayer db id).1 = true := by
  unfold DeletePlayer
  repeat' (first | split | dsimp only)
  all_goals first | exact Or.inl rfl | exact Or.inr rfl

/-- Every `finishGameUpdate` either leaves the store untouched or
succeeds. -/
theorem finishGameUpdate_atomic (db : DB) (game : Game) :
    (finishGameUpdate db game).2 = db ∨ isOkE (finishGameUpdate db game).1 = true := by
  unfold finishGameUpdate
  repeat' (first | split | dsimp only)
  all_goals first | exact Or.inl rfl | exact Or.inr rfl

/-- Every `CreateGame` either leaves the store untouched or succeeds. -/
theorem createGame_atomic (db : DB) (req : CreateGameRequest) (y z : Int) :
    (CreateGame db req y z).2 = db ∨ isOkE (CreateGame db req y z).1 = true := by
  unfold CreateGame
  repeat' (first | split | dsimp only)
  all_goals first | exact Or.inl rfl | exact Or.inr rfl

/-- Every `UpdateGame` either leaves the store untouched or succeeds. -/
theorem updateGame_atomic (db : DB) (id : Int) (req : UpdateGameRequest) (y z : Int) :
    (UpdateGame db id req y z).2 = db ∨ isOkE (UpdateGame db id req y z).1 = true := by
  unfold UpdateGame
  repeat' (first | split | dsimp only)
  all_goals first
    | exact Or.inl rfl
    | exact Or.inr rfl
    | exact finishGameUpdate_atomic _ _

/-- Every `DeleteGame` either leaves the store untouched or succeeds. -/
theorem deleteGame_atomic (db : DB) (id : Int) :
    (DeleteGame db id).2 = db ∨ isOkE (DeleteGame db id).1 = true := by
  unfold DeleteGame
  repeat' (first | split | dsimp only)
  all_goals first | exact Or.inl rfl | exact Or.inr rfl

/-- Every `CreatePlayerStats` either leaves the store untouched or
succeeds. -/
theorem createPlayerStats_atomic (db : DB) (req : CreatePlayerStatsRequest) :
    (CreatePlayerStats db req).2 = db ∨ isOkE (CreatePlayerStats db req).1 = true := by
  unfold CreatePlayerStats
  repeat' (first | split | dsimp only)
  all_goals first | exact Or.inl rfl | exact Or.inr rfl

/-- Every `UpdatePlayerStats` either leaves the store untouched or
succeeds. -/
theorem updatePlayerStats_atomic (db : DB) (id : Int) (req : UpdatePlayerStatsRequest) :
    (UpdatePlayerStats db id req).2 = db ∨ isOkE (UpdatePlayerStats db id req).1 = true := by
  unfold UpdatePlayerStats
  repeat' (first | split | dsimp only)
  all_goals first | exact Or.inl rfl | exact Or.inr rfl

/-- Every `DeletePlayerStats` either leaves the store untouched or
succeeds. -/
theorem deletePlayerStats_atomic (db : DB) (id : Int) :
    (DeletePlayerStats db id).2 = db ∨ isOkE (DeletePlayerStats db id).1 = true := by
  unfold DeletePlayerStats
  repeat' (first | split | dsimp only)
  all_goals first | exact Or.inl rfl | exact Or.inr rfl

/-- A failed operation leaves the store unchanged, given the
either-unchanged-or-succeeded disjunction. -/
theorem atomicOfOr {α : Type} {x : Except String α × DB} {db : DB}
    (ho : x.2 = db ∨ isOkE x.1 = true) (h : isOkE x.1 = false) : x.2 = db := by
  rcases ho with h2 | h2
  · exact h2
  · rw [h] at h2
    exact absurd h2 (by simp)

/-- C10: for each of the twelve mutating service operations, whenever
the operation returns an error — validation failure, existence-probe
failure, or uniqueness-probe failure alike — the store it returns is
exactly the store it was given: every rejected request leaves stored
state unchanged. -/
theorem c10_rejection_atomicity :
    (∀ (db : DB) (req : CreateTeamRequest),
      isOkE (CreateTeam db req).1 = false → (CreateTeam db req).2 = db) ∧
    (∀ (db : DB) (id : Int) (req : UpdateTeamRequest),
      isOkE (UpdateTeam db id req).1 = false → (UpdateTeam db id req).2 = db) ∧
    (∀ (db : DB) (id : Int),
      isOkE (DeleteTeam db id).1 = false → (DeleteTeam db id).2 = db) ∧
    (∀ (db : DB) (req : CreatePlayerRequest),
      isOkE (CreatePlayer db req).1 = false → (CreatePlayer db req).2 = db) ∧
    (∀ (db : DB) (id : Int) (req : UpdatePlayerRequest),
      isOkE (UpdatePlayer db id req).1 = false → (UpdatePlayer db id req).2 = db) ∧
    (∀ (db : DB) (id : Int),
      isOkE (DeletePlayer db id).1 = false → (DeletePlayer db id).2 = db) ∧
    (∀ (db : DB) (req : CreateGameRequest) (y z : Int),
      isOkE (CreateGame db req y z).1 = false → (CreateGame db req y z).2 = db) ∧
    (∀ (db : DB) (id : Int) (req : UpdateGameRequest) (y z : Int),
      isOkE (UpdateGame db id req y z).1 = false → (UpdateGame db id req y z).2 = db) ∧
    (∀ (db : DB) (id : Int),
      isOkE (DeleteGame db id).1 = false → (DeleteGame db id).2 = db) ∧
    (∀ (db : DB) (req : CreatePlayerStatsRequest),
      isOkE (CreatePlayerStats db req).1 = false → (CreatePlayerStats db req).2 = db) ∧
    (∀ (db : DB) (id : Int) (req : UpdatePlayerStatsRequest),
      isOkE (UpdatePlayerStats db id req).1 = false → (UpdatePlayerStats db id req).2 = db) ∧
    (∀ (db : DB) (id : Int),
      isOkE (DeletePlayerStats db id).1 = false → (DeletePlayerStats db id).2 = db) :=
  ⟨fun db req h => atomicOfOr (createTeam_atomic db req) h,
   fun db id req h => atomicOfOr (updateTeam_atomic db id req) h,
   fun db id h => atomicOfOr (deleteTeam_atomic db id) h,
   fun db req h => atomicOfOr (createPlayer_atomic db req) h,
   fun db id req h => atomicOfOr (updatePlayer_atomic db id req) h,
   fun db id h => atomicOfOr (deletePlayer_atomic db id) h,
   fun db req y z h => atomicOfOr (createGame_atomic db req y z) h,
   fun db id req y z h => atomicOfOr (updateGame_atomic db id req y z) h,
   fun db id h => atomicOfOr (deleteGame_atomic db id) h,
   fun db req h => atomicOfOr (createPlayerStats_atomic db req) h,
   fun db id req h => atomicOfOr (updatePlayerStats_atomic db id req) h,
   fun db id h => atomicOfOr (deletePlayerStats_atomic db id) h⟩

/-- C10 witness: three rejected requests on the fixture store — a
delete of a missing team, a create with a conflicting jersey, and a
duplicate stats create — each returning the store unchanged. -/
theorem c10_rejection_atomicity_witness :
    (isOkE (DeleteTeam dbMain 99).1 = false ∧ (DeleteTeam dbMain 99).2 = dbMain) ∧
    (isOkE (CreatePlayer dbMain
      { teamID := 1, firstName := "Joe", lastName := "Smith", position := "WR",
        jerseyNumber := some 15 }).1 = false ∧
     (CreatePlayer dbMain
      { teamID := 1, firstName := "Joe", lastName := "Smith", position := "WR",
        jerseyNumber := some 15 }).2 = dbMain) ∧
    (isOkE (CreatePlayerStats dbMain
      { playerID := 4, gameID := 3, tackles := some 2 }).1 = false ∧
     (CreatePlayerStats dbMain
      { playerID := 4, gameID := 3, tackles := some 2 }).2 = dbMain) :=
  ⟨⟨rfl, c10_rejection_atomicity.2.2.1 dbMain 99 rfl⟩,
   ⟨rfl, c10_rejection_atomicity.2.2.2.1 dbMain _ rfl⟩,
   ⟨rfl, c10_rejection_atomicity.2.2.2.2.2.2.2.2.2.1 dbMain _ rfl⟩⟩

end FantasyBackend
